import Mathlib

/-!
Verification of the discord-summarizer message-collection and
summary-orchestration pipeline.

Shallow embedding of the Python sources:
  * src/utils/prompts.py            (PromptTemplates)
  * src/clients/discord_reader.py   (DiscordReaderClient)
  * src/models/message.py           (DiscordMessage)
  * src/summarizers/base.py         (BaseSummarizer)
  * src/summarizers/__init__.py     (create_summarizer)
  * src/services/summary_generator.py (SummaryGeneratorService)
  * src/services/message_collector.py (MessageCollectorService)

Python `Optional[str]` values are `Option String`; Python truthiness of a
string (`if s:`) is `s ≠ ""`, of an optional string it is
`s ≠ None and s ≠ ""`.  Points in time are embedded as exact rationals
(seconds, for the rate limiter) and as naive calendar datetimes (a record
of year/month/day/hour/minute/second, for message timestamps).  Raised
exceptions are `Except PyErr`.
-/

namespace DS

/-- Python exceptions that the embedded code can raise. -/
inductive PyErr
  | valueError
  | keyError
  | exc
  deriving DecidableEq, Repr

/-- Does `pat` occur as a contiguous run inside `l`? -/
def pyInAux (pat : List Char) : List Char → Bool
  | [] => pat.isEmpty
  | c :: rest => pat.isPrefixOf (c :: rest) || pyInAux pat rest

/-- Python's `in` operator on strings: substring containment. -/
def pyIn (pat s : String) : Bool :=
  pyInAux pat.toList s.toList

/-- Python truthiness of an `Optional[str]`: not `None` and not `""`. -/
def truthyOpt : Option String → Bool
  | none => false
  | some s => s ≠ ""

/-- Replace every occurrence of `pat` (non-empty) by `repl`, scanning left
to right; `fuel` bounds the recursion (passing the input length makes it a
no-op bound). -/
def replaceFuel (pat repl : List Char) : Nat → List Char → List Char
  | 0, l => l
  | _ + 1, [] => []
  | fuel + 1, c :: rest =>
    if pat.isPrefixOf (c :: rest) ∧ ¬ pat.isEmpty then
      repl ++ replaceFuel pat repl fuel (rest.drop (pat.length - 1))
    else c :: replaceFuel pat repl fuel rest

/-- Python `str.replace(pat, repl)` (replaces every occurrence). -/
def pyReplace (s pat repl : String) : String :=
  String.mk (replaceFuel pat.toList repl.toList s.toList.length s.toList)

/-- Python `str.lower()` (ASCII case folding, character by character). -/
def pyLower (s : String) : String :=
  String.mk (s.toList.map Char.toLower)

/-! ## src/utils/prompts.py — `PromptTemplates`

`SPECIALIZED_PROMPTS` is a class-level mutable dict mapping a prompt key to
a dict with `system_prompt` and `user_prompt` entries.  We embed the dict
as an association list threaded as state, since `get_prompts` mutates the
selected entry in place when overrides are supplied. -/

/-- One entry of `SPECIALIZED_PROMPTS`: a `system_prompt`/`user_prompt` pair. -/
structure PromptPair where
  system_prompt : String
  user_prompt : String
  deriving DecidableEq, Repr

/-- `PromptTemplates.DEFAULT_SYSTEM_PROMPT`. -/
def DEFAULT_SYSTEM_PROMPT : String :=
  "\n    You are an expert summarization assistant designed to extract \n    key insights from complex conversations.\n\n    Core Summarization Guidelines:\n    1. Identify the most significant information\n    2. Maintain objectivity and precision\n    3. Provide clear, structured insights\n    4. Focus on actionable and meaningful content\n    5. Adapt to the specific context of the conversation\n    6. Include all relevant links that were shared in the discussion\n    7. If data or statistics are mentioned, analyze and highlight them when relevant\n    8. Pay attention to financial strategies, trading ideas, or investment opportunities mentioned\n    9. DATA IS KEY\n    "

/-- `PromptTemplates.DEFAULT_USER_PROMPT`. -/
def DEFAULT_USER_PROMPT : String :=
  "\n    Analyze and summarize the following conversation with careful attention \n    to context, key themes, and important details.\n\n    Conversation Transcript:\n    {text}\n\n    Summary Expectations:\n    - Concise yet comprehensive overview\n    - Highlight main topics and notable interactions\n    - Capture essential insights and potential implications\n    - Maintain the original context's tone and significance\n    - Include all relevant links shared in the conversation\n    - If financial strategies are mentioned, highlight them clearly\n    - Analyze any data or statistics if they're present and relevant\n    - Present information in a structured, easy-to-understand format\n    "

/-- System prompt of the `'defi'` entry of `SPECIALIZED_PROMPTS`. -/
def DEFI_SYSTEM_PROMPT : String :=
  "\n            You are a specialized DeFi and crypto analyst focusing on extracting actionable insights\n            from cryptocurrency and blockchain-related discussions.\n\n            Analysis Priorities:\n            1. Identify yield farming opportunities and stablecoin farming strategies\n            2. Assess liquidity provision strategies and risk/reward ratios\n            3. Highlight market sentiment and trends across different protocols\n            4. Extract APY/APR data and compare different yield options\n            5. Note protocol risks, smart contract vulnerabilities, or security concerns\n            6. Track important governance decisions or protocol updates\n            7. Monitor TVL (Total Value Locked) changes and their implications\n            8. Identify arbitrage opportunities or cross-chain strategies\n            9. Include all relevant links to protocols, tools, or information sources\n            10. Pay special attention to new project launches or token airdrops\n            "

/-- User prompt of the `'defi'` entry of `SPECIALIZED_PROMPTS`. -/
def DEFI_USER_PROMPT : String :=
  "\n            Provide a comprehensive analysis of the following crypto/DeFi conversation, \n            emphasizing financial strategies, yield opportunities, and market dynamics.\n\n            Conversation Transcript:\n            {text}\n\n            Analysis Requirements:\n            - Extract specific financial metrics (APYs, TVL, token prices) with clear sourcing\n            - Identify yield farming and stablecoin strategies with their risk levels\n            - Highlight arbitrage or market inefficiency opportunities\n            - Include all relevant links to protocols, tools, dashboards and resources\n            - Note any upcoming protocol launches, airdrops, or major governance votes\n            - Summarize sentiment around major DeFi protocols mentioned\n            - Analyze any on-chain data or statistics mentioned and their implications\n            - Organize information by protocol or strategy type for clarity\n            - Prioritize actionable information that can be used for investment decisions\n            - DATA IS KEY\n            "

/-- System prompt of the `'crypto'` entry of `SPECIALIZED_PROMPTS`. -/
def CRYPTO_SYSTEM_PROMPT : String :=
  "\n            You are a cryptocurrency market analyst specializing in extracting trading insights\n            and market intelligence from online discussions.\n\n            Analysis Priorities:\n            1. Identify trading setups and technical analysis patterns\n            2. Extract price predictions with their supporting rationales\n            3. Monitor sentiment around major cryptocurrencies\n            4. Track on-chain metrics and their implications (e.g., exchange flows, whale movements)\n            5. Note regulatory developments or news that could impact markets\n            6. Highlight correlations between crypto and traditional markets\n            7. Identify emerging narratives that could drive market cycles\n            8. Include all relevant links to charts, data sources, or news articles\n            9. Assess macro factors influencing the broader crypto market\n            10. Note new token launches or investment opportunities\n            "

/-- User prompt of the `'crypto'` entry of `SPECIALIZED_PROMPTS`. -/
def CRYPTO_USER_PROMPT : String :=
  "\n            Analyze the following cryptocurrency conversation for trading insights, \n            market trends, and investment opportunities.\n\n            Conversation Transcript:\n            {text}\n\n            Analysis Requirements:\n            - Extract specific price levels, support/resistance zones, and technical patterns\n            - Identify trading strategies with their timeframes (short/mid/long term)\n            - Summarize sentiment around major cryptocurrencies mentioned\n            - Include all relevant links to charts, news articles, or analysis tools\n            - Highlight on-chain metrics mentioned and their implications\n            - Note any macro factors or correlations with traditional markets\n            - Identify emerging narratives that could drive price action\n            - Organize information by asset or market segment for clarity\n            - Prioritize actionable trading or investment information\n            "

/-- The `'general'` entry of `SPECIALIZED_PROMPTS`. -/
def generalPair : PromptPair := ⟨DEFAULT_SYSTEM_PROMPT, DEFAULT_USER_PROMPT⟩

/-- The `'defi'` entry of `SPECIALIZED_PROMPTS`. -/
def defiPair : PromptPair := ⟨DEFI_SYSTEM_PROMPT, DEFI_USER_PROMPT⟩

/-- The `'crypto'` entry of `SPECIALIZED_PROMPTS`. -/
def cryptoPair : PromptPair := ⟨CRYPTO_SYSTEM_PROMPT, CRYPTO_USER_PROMPT⟩

/-- The mutable class attribute `PromptTemplates.SPECIALIZED_PROMPTS`,
embedded as an association list (threaded as state by `get_prompts`). -/
def PromptsState := List (String × PromptPair)

instance : DecidableEq PromptsState := by
  unfold PromptsState
  infer_instance

/-- Initial value of `SPECIALIZED_PROMPTS` at class-definition time. -/
def initPrompts : PromptsState :=
  [("general", generalPair), ("defi", defiPair), ("crypto", cryptoPair)]

/-- Keyword list of the defi branch of `get_prompts`. -/
def defiKeywords : List String :=
  ["defi", "yield", "farm", "staking", "liquidity", "lp", "lending",
   "borrowing", "amm", "swap", "stable"]

/-- Keyword list of the crypto branch of `get_prompts`. -/
def cryptoKeywords : List String :=
  ["crypto", "bitcoin", "ethereum", "btc", "eth", "token", "coin",
   "trading", "market", "airdrop"]

/-- Key-selection logic of `PromptTemplates.get_prompts`: explicit
`prompt_type` wins when truthy and present in `SPECIALIZED_PROMPTS`, else a
truthy `channel_name` is keyword-matched (defi, then crypto, else general),
else general. -/
def selectKey (st : PromptsState) (channel_name prompt_type : Option String) : String :=
  if truthyOpt prompt_type ∧ (st.lookup (prompt_type.getD "")).isSome then
    prompt_type.getD ""
  else if truthyOpt channel_name then
    let topic_lower := pyLower (channel_name.getD "")
    if defiKeywords.any (fun term => pyIn term topic_lower) then "defi"
    else if cryptoKeywords.any (fun term => pyIn term topic_lower) then "crypto"
    else "general"
  else "general"

/-- Replace the value stored under `key` in the association list. -/
def updateEntry (st : PromptsState) (key : String) (p : PromptPair) : PromptsState :=
  st.map (fun kv => if kv.1 = key then (kv.1, p) else kv)

/-- `PromptTemplates.get_prompts`.  Returns the selected (possibly
overridden) prompt pair together with the updated `SPECIALIZED_PROMPTS`
state: the overrides are written through the reference `prompts` into the
shared class-level dict entry. -/
def get_prompts (st : PromptsState) (channel_name prompt_type : Option String)
    (override_system_prompt override_user_prompt : Option String) :
    PromptPair × PromptsState :=
  let key := selectKey st channel_name prompt_type
  let base := (st.lookup key).getD ⟨"", ""⟩
  let p1 := match override_system_prompt with
    | some s => { base with system_prompt := s }
    | none => base
  let p2 := match override_user_prompt with
    | some s => { p1 with user_prompt := s }
    | none => p1
  (p2, updateEntry st key p2)

/-- `SummaryGeneratorService._detect_prompt_type` (summary_generator.py). -/
def detect_prompt_type (channel_name : String) : Option String :=
  let channel_lower := pyLower channel_name
  if ["dev", "code", "programming", "tech", "engineering"].any
      (fun tech => pyIn tech channel_lower) then some "technical"
  else if ["game", "gaming", "play", "stream"].any
      (fun game => pyIn game channel_lower) then some "gaming"
  else none

/-! ## src/clients/discord_reader.py — rate-limit handling

`DiscordReaderClient` keeps `rate_limit_remaining` (an int, initially `5`)
and `rate_limit_reset` (a float unix time, initially `0`).  Times are
embedded as exact rationals (seconds). -/

/-- The client's mutable rate-limit fields. -/
structure RateState where
  remaining : Int
  reset : ℚ
  deriving DecidableEq, Repr

/-- `DiscordReaderClient._handle_rate_limit`, returning the duration slept
(0 when no sleep happens).  The code computes
`sleep_time = max(0, reset - now) + 0.5` and sleeps it when positive. -/
def handle_rate_limit (st : RateState) (now : ℚ) : ℚ :=
  if st.remaining ≤ 1 then
    let sleep_time := max 0 (st.reset - now) + 1/2
    if sleep_time > 0 then sleep_time else 0
  else 0

/-- The sleeps `_handle_rate_limit` performs (as a list of durations). -/
def handle_rate_limit_sleeps (st : RateState) (now : ℚ) : List ℚ :=
  if st.remaining ≤ 1 then
    let sleep_time := max 0 (st.reset - now) + 1/2
    if sleep_time > 0 then [sleep_time] else []
  else []

/-! ## src/clients/discord_reader.py — `_make_request`

One attempt of the server is either a raised transport exception (caught by
the method's `try`) or a response carrying a status code, the optional
rate-limit headers, and — for 429 responses — the body's `retry_after`
value (already defaulted to 1 when the key is absent). -/

/-- A server response: status code, optional `X-RateLimit-Remaining` and
`X-RateLimit-Reset` headers, effective `retry_after` body value, and the
JSON body (abstracted as a string). -/
structure ServerResp where
  status : Nat
  hdrRemaining : Option Int
  hdrReset : Option ℚ
  retry_after : ℚ
  body : String

/-- What the server does on one attempt: raise inside `requests.get`/`post`
or deliver a response. -/
inductive AttemptRes
  | raised
  | resp (r : ServerResp)

/-- Result of `_make_request` under a recursion budget: `none` means the
429-retry recursion was still running when `fuel` attempts had been made
(the Python code has no such budget: it recurses unconditionally). -/
def make_request (server : Nat → AttemptRes) (clock : Nat → ℚ) :
    Nat → Nat → RateState → Option (Option String) × RateState × List ℚ
  | 0, _, st => (none, st, [])
  | fuel + 1, n, st =>
    let pre := handle_rate_limit_sleeps st (clock n)
    match server n with
    | .raised => (some none, st, pre)
    | .resp r =>
      let st' : RateState :=
        ⟨r.hdrRemaining.getD 5, r.hdrReset.getD (clock n + 5)⟩
      if r.status = 429 then
        let rec' := make_request server clock fuel (n + 1) st'
        (rec'.1, rec'.2.1, pre ++ [r.retry_after] ++ rec'.2.2)
      else if r.status ≠ 200 then (some none, st', pre)
      else (some (some r.body), st', pre)

/-! ## Naive datetimes

`datetime.fromisoformat(s.rstrip('Z')).replace(tzinfo=None)` produces a
naive calendar datetime; comparisons are lexicographic on the fields. -/

/-- A naive `datetime` value. -/
structure DateTime where
  year : Nat
  month : Nat
  day : Nat
  hour : Nat
  minute : Nat
  second : Nat
  deriving DecidableEq, Repr

/-- Lexicographic strict comparison of naive datetimes (`<` in Python). -/
def DateTime.ltb (a b : DateTime) : Bool :=
  if a.year ≠ b.year then a.year < b.year
  else if a.month ≠ b.month then a.month < b.month
  else if a.day ≠ b.day then a.day < b.day
  else if a.hour ≠ b.hour then a.hour < b.hour
  else if a.minute ≠ b.minute then a.minute < b.minute
  else a.second < b.second

/-- Zero-pad a natural number to at least `w` digits. -/
def padNat (w n : Nat) : String :=
  let s := toString n
  String.mk (List.replicate (w - s.length) '0') ++ s

/-! ## src/models/message.py — `DiscordMessage` -/

/-- The `DiscordMessage` dataclass. -/
structure DiscordMessage where
  id : String
  content : String
  username : String
  user_id : String
  timestamp : DateTime
  channel_id : String
  attachments_count : Nat
  embeds_count : Nat
  mentions_count : Nat
  deriving DecidableEq, Repr

/-- `DiscordMessage.formatted_time`: `strftime("%Y-%m-%d %H:%M:%S")`. -/
def DiscordMessage.formatted_time (m : DiscordMessage) : String :=
  padNat 4 m.timestamp.year ++ "-" ++ padNat 2 m.timestamp.month ++ "-" ++
  padNat 2 m.timestamp.day ++ " " ++ padNat 2 m.timestamp.hour ++ ":" ++
  padNat 2 m.timestamp.minute ++ ":" ++ padNat 2 m.timestamp.second

/-- `DiscordMessage.formatted_content`: `"[time] username: content"`. -/
def DiscordMessage.formatted_content (m : DiscordMessage) : String :=
  "[" ++ m.formatted_time ++ "] " ++ m.username ++ ": " ++ m.content

/-! ## src/clients/discord_reader.py — `_convert_to_message_model` -/

/-- The `'timestamp'` field of a raw API record: missing, an ISO string
that parses (after `rstrip('Z')`) to the given naive datetime, or a
malformed string whose parse raises `ValueError`. -/
inductive TsField
  | absent
  | valid (d : DateTime)
  | malformed
  deriving DecidableEq, Repr

/-- The `'author'` sub-dict of a raw API record. -/
structure RawAuthor where
  username : Option String
  id : Option String
  deriving DecidableEq, Repr

/-- A raw message record from the API.  `attachments`/`embeds`/`mentions`
are kept only as their lengths. -/
structure RawMsg where
  id : Option String
  content : String
  author : Option RawAuthor
  timestamp : TsField
  channel_id : Option String
  attachments : Nat
  embeds : Nat
  mentions : Nat
  deriving DecidableEq, Repr

/-- `DiscordReaderClient._convert_to_message_model`.  Empty content yields
`none`; missing author fields degrade to `"Unknown"`/`"0"`; a missing
timestamp falls back to `datetime.now()` (the `now` argument); a malformed
timestamp raises inside the method's `try` and yields `none`. -/
def convert_to_message_model (raw : RawMsg) (now : DateTime) : Option DiscordMessage :=
  if raw.content = "" then none
  else
    let author := raw.author.getD ⟨none, none⟩
    let username := author.username.getD "Unknown"
    let user_id := author.id.getD "0"
    match raw.timestamp with
    | .malformed => none
    | .absent =>
      some ⟨raw.id.getD "0", raw.content, username, user_id, now,
            raw.channel_id.getD "0", raw.attachments, raw.embeds, raw.mentions⟩
    | .valid d =>
      some ⟨raw.id.getD "0", raw.content, username, user_id, d,
            raw.channel_id.getD "0", raw.attachments, raw.embeds, raw.mentions⟩

/-! ## src/clients/discord_reader.py — `collect_messages`

The paging algorithm (spec §4.3 steps 2–4): request up to 100 messages
before the last-seen id; stop on an empty page, on the 500-request cap, or
when the oldest message of a page (its last element — pages arrive
newest-first) is older than the threshold, in which case only that page's
at-or-after-threshold messages are kept.  The source file elides the
main-channel loop behind the comment `# [Existing message collection code
here]`; the identical loop for threads (lines 197–227) is present, and the
definitions below embed that in-source thread loop.  For the main channel
they are *modelled from the spec*, which prescribes the identical
algorithm (spec §4.3 step 5: "run the identical paging algorithm").

Accessing `msg['timestamp']` / `msg['id']` at loop level raises on a
missing key (unlike `_convert_to_message_model`, which uses `.get`), and a
malformed timestamp raises `ValueError` there; both abort the whole
channel through the outer `except`. -/

/-- Loop-level read of a raw message's timestamp: raises on a missing or
malformed `'timestamp'`. -/
def loopTs : TsField → Except PyErr DateTime
  | .absent => .error .keyError
  | .malformed => .error .valueError
  | .valid d => .ok d

/-- Loop-level read of a raw message's `'id'`. -/
def loopId (raw : RawMsg) : Except PyErr String :=
  match raw.id with
  | none => .error .keyError
  | some i => .ok i

/-- The per-message body of the threshold-straddling branch: parse each
message's timestamp (raising on malformed ones), keep the converted
message when the timestamp is at or after the threshold. -/
def straddleKeep (threshold now : DateTime) : List RawMsg → Except PyErr (List DiscordMessage)
  | [] => .ok []
  | raw :: rest =>
    match loopTs raw.timestamp with
    | .error e => .error e
    | .ok t =>
      match straddleKeep threshold now rest with
      | .error e => .error e
      | .ok tail =>
        if ¬ t.ltb threshold then
          match convert_to_message_model raw now with
          | some m => .ok (m :: tail)
          | none => .ok tail
        else .ok tail

/-- Convert every message of a full (non-straddling) page, skipping the
records `_convert_to_message_model` rejects. -/
def convertAll (batch : List RawMsg) (now : DateTime) : List DiscordMessage :=
  batch.filterMap (fun raw => convert_to_message_model raw now)

/-- One paging loop (`while requests < MAX_TOTAL_REQUESTS`).  `fetch c b`
is the page `get_messages(channel, limit=100, before=b)` returns on the
`c`-th request.  Returns the collected messages (or the exception escaping
to the channel-level handler) together with the number of page requests
issued, which is the instrumentation the resource-bound claims are about.
`fuel` is `MAX_TOTAL_REQUESTS - requests`, so the entry point passes 500. -/
def pageLoop (fetch : Nat → Option String → List RawMsg) (threshold now : DateTime) :
    Nat → Nat → Option String → List DiscordMessage →
    Except PyErr (List DiscordMessage) × Nat
  | 0, count, _, acc => (.ok acc, count)
  | fuel + 1, count, last_id, acc =>
    let batch := fetch count last_id
    match batch.getLast? with
    | none => (.ok acc, count + 1)
    | some lastMsg =>
      match loopTs lastMsg.timestamp with
      | .error e => (.error e, count + 1)
      | .ok oldest =>
        if oldest.ltb threshold then
          match straddleKeep threshold now batch with
          | .error e => (.error e, count + 1)
          | .ok kept => (.ok (acc ++ kept), count + 1)
        else
          match loopId lastMsg with
          | .error e => (.error e, count + 1)
          | .ok i =>
            pageLoop fetch threshold now fuel (count + 1) (some i)
              (acc ++ convertAll batch now)

/-- An active thread object from `/channels/{id}/threads/active`. -/
structure RawThread where
  id : Option String
  name : Option String
  deriving DecidableEq, Repr

/-- `thread.get("id")` membership test against `config.thread_ids`
(Python's `None in list` is false). -/
def threadSelected (th : RawThread) (ids : List String) : Bool :=
  match th.id with
  | some i => i ∈ ids
  | none => false

/-- `thread.get("name", f"Thread {thread_id}")`. -/
def threadName (th : RawThread) : String :=
  match th.name with
  | some n => n
  | none => "Thread " ++ (match th.id with | some i => i | none => "None")

/-- The thread id passed to `get_messages` (only evaluated for selected
threads, whose id is present). -/
def threadIdOf (th : RawThread) : String :=
  match th.id with
  | some i => i
  | none => ""

/-- The per-thread collection loop of `collect_messages`: for every active
thread whose id is configured, run the paging loop with its own fresh
500-request budget.  Returns the `(messages, name)` pairs (or the first
escaping exception) and the list of per-thread request counts. -/
def collectThreads (threadFetch : String → Nat → Option String → List RawMsg)
    (ids : List String) (threshold now : DateTime) :
    List RawThread → Except PyErr (List (List DiscordMessage × String)) × List Nat
  | [] => (.ok [], [])
  | th :: rest =>
    if threadSelected th ids then
      match pageLoop (threadFetch (threadIdOf th)) threshold now 500 0 none [] with
      | (.error e, cnt) => (.error e, [cnt])
      | (.ok msgs, cnt) =>
        match collectThreads threadFetch ids threshold now rest with
        | (.error e, cnts) => (.error e, cnt :: cnts)
        | (.ok tds, cnts) => (.ok ((msgs, threadName th) :: tds), cnt :: cnts)
    else
      collectThreads threadFetch ids threshold now rest

/-- Result of `collect_messages`, instrumented with the number of
message-page requests issued for the main channel and for each collected
thread. -/
structure CollectOut where
  messages : List DiscordMessage
  channel_name : String
  thread_data : List (List DiscordMessage × String)
  mainRequests : Nat
  threadRequests : List Nat
  deriving Repr

/-- `channel_info.get('name', f"Channel {channel_id}")` with the
`if channel_info else` default of `collect_messages`. -/
def channelNameOf (channel_id : String) (channelInfo : Option (Option String)) : String :=
  match channelInfo with
  | some (some n) => n
  | some none => "Channel " ++ channel_id
  | none => "Channel " ++ channel_id

/-- `DiscordReaderClient.collect_messages`.

* `channelInfo`: result of `get_channel_info` (`none` = failed request;
  `some name?` = a channel object whose `'name'` may be missing).
* `mainFetch` / `threadFetch`: the message pages the API serves.
* `cfgThreadIds`: `none` models the real client's missing `self.config`
  attribute (the `AttributeError` is caught by the channel-level `except`,
  discarding everything); `some none` models `self.config` being `None`
  or lacking `thread_ids`; `some (some ids)` a config with `thread_ids`.
* `activeThreads`: `none` models a failed `/threads/active` request or a
  response without a `"threads"` key.
* `time_threshold` is `datetime.now() - timedelta(days=days)` (the
  calendar subtraction itself is kept abstract), `now` is
  `datetime.now()`.

Any exception inside the `try` aborts the channel: the method logs and
returns `([], channel_name, [])`.  Request counts are instrumentation and
survive the abort. -/
def collect_messages (channel_id : String) (channelInfo : Option (Option String))
    (mainFetch : Nat → Option String → List RawMsg)
    (threadFetch : String → Nat → Option String → List RawMsg)
    (cfgThreadIds : Option (Option (List String)))
    (activeThreads : Option (List RawThread))
    (time_threshold now : DateTime) : CollectOut :=
  -- Main-channel paging loop (modelled from the spec: the source elides it).
  match pageLoop mainFetch time_threshold now 500 0 none [] with
  | (.error _, mainCount) =>
    ⟨[], channelNameOf channel_id channelInfo, [], mainCount, []⟩
  | (.ok all_messages, mainCount) =>
    match cfgThreadIds with
    | none =>
      -- `self.config` attribute missing: AttributeError, caught by `except`.
      ⟨[], channelNameOf channel_id channelInfo, [], mainCount, []⟩
    | some cfg =>
      if (cfg.getD []).isEmpty then
        -- `self.config` falsy or `thread_ids` empty: skip thread collection.
        ⟨all_messages, channelNameOf channel_id channelInfo, [], mainCount, []⟩
      else
        match activeThreads with
        | none =>
          ⟨all_messages, channelNameOf channel_id channelInfo, [], mainCount, []⟩
        | some threads =>
          match collectThreads threadFetch (cfg.getD []) time_threshold now threads with
          | (.error _, thCounts) =>
            ⟨[], channelNameOf channel_id channelInfo, [], mainCount, thCounts⟩
          | (.ok thread_data, thCounts) =>
            ⟨all_messages, channelNameOf channel_id channelInfo, thread_data,
             mainCount, thCounts⟩

/-- The message-history model of one channel's source: `history` is the
full list of messages, newest first.  `GET messages?limit=100&before=b`
returns the first 100 messages strictly after the position of id `b`
(all of the newest 100 when `b` is unset). -/
def fetchOf (history : List RawMsg) : Nat → Option String → List RawMsg :=
  fun _ before =>
    match before with
    | none => history.take 100
    | some i =>
      ((history.dropWhile (fun m => decide (m.id ≠ some i))).drop 1).take 100

/-! ## src/summarizers — providers and the factory

A summarizer is its class name together with the behaviour of its
`generate_summary(messages, channel_name, prompt_type)` call (the concrete
implementations catch internally and return `None` on failure, so the
behaviour is a total function into `Option String`).  The environment
around the orchestrator — the two API keys read from `os.getenv` and the
two backends' behaviours — is bundled in `World`. -/

/-- `LLMProvider` (config/settings.py). -/
inductive LLMProvider
  | deepseek
  | anthropic
  deriving DecidableEq, Repr

/-- A summarizer instance: its Python class name and the behaviour of its
`generate_summary` method. -/
structure Summarizer where
  className : String
  gen : List DiscordMessage → String → Option String → Option String

/-- `BaseSummarizer.provider_name`:
`self.__class__.__name__.replace('Summarizer', '')`. -/
def Summarizer.provider_name (s : Summarizer) : String :=
  pyReplace s.className "Summarizer" ""

/-- The ambient environment of the summary orchestrator: the
`DEEPSEEK_API_KEY`/`ANTHROPIC_API_KEY` environment variables and the two
backends' summarization behaviours. -/
structure World where
  deepseekKey : Option String
  anthropicKey : Option String
  deepseekGen : List DiscordMessage → String → Option String → Option String
  anthropicGen : List DiscordMessage → String → Option String → Option String

/-- `create_summarizer` (summarizers/__init__.py), with each provider's
class bound to its behaviour in `w`. -/
def create_summarizer (w : World) : LLMProvider → Summarizer
  | .deepseek => ⟨"DeepSeekSummarizer", w.deepseekGen⟩
  | .anthropic => ⟨"AnthropicSummarizer", w.anthropicGen⟩

/-- The API key `os.getenv` yields for a provider. -/
def keyOf (w : World) : LLMProvider → Option String
  | .deepseek => w.deepseekKey
  | .anthropic => w.anthropicKey

/-- The deepseek↔anthropic swap performed by the fallback construction. -/
def LLMProvider.other : LLMProvider → LLMProvider
  | .deepseek => .anthropic
  | .anthropic => .deepseek

/-! ## src/services/summary_generator.py -/

/-- `SummaryGeneratorService._generate_summary_with_fallback`: try the
primary summarizer; if its result is falsy, build the other provider
(`"Anthropic" in current_provider` decides the direction), require its API
key, and retry once; `(None, None)` when everything fails. -/
def generate_summary_with_fallback (w : World) (primary : Summarizer)
    (messages : List DiscordMessage) (channel_name : String)
    (prompt_type : Option String) : Option String × Option String :=
  let summary_text := primary.gen messages channel_name prompt_type
  if truthyOpt summary_text then
    (summary_text, some primary.provider_name)
  else
    let fallbackProvider :=
      if pyIn "Anthropic" primary.className then LLMProvider.deepseek
      else LLMProvider.anthropic
    if ¬ truthyOpt (keyOf w fallbackProvider) then (none, none)
    else
      let fallback := create_summarizer w fallbackProvider
      let fallback_summary := fallback.gen messages channel_name prompt_type
      if truthyOpt fallback_summary then
        (fallback_summary, some fallback.provider_name)
      else (none, none)

/-- The `DiscordSummary` record built by `create_summary_object`
(models/summary.py); `generation_time`/`date` are wall-clock-derived and
omitted. -/
structure SummaryObj where
  content : String
  title : String
  channel_id : String
  channel_name : String
  message_count : Nat
  provider_name : String
  deriving DecidableEq, Repr

/-- `BaseSummarizer.create_summary_object`:
`actual_provider = provider_name or self.provider_name`. -/
def create_summary_object (self' : Summarizer) (content : String)
    (messages : List DiscordMessage) (channel_name channel_id : String)
    (provider_name : Option String) : SummaryObj :=
  let actual_provider :=
    match provider_name with
    | some p => if p ≠ "" then p else self'.provider_name
    | none => self'.provider_name
  ⟨content, "Discord Summary: " ++ channel_name, channel_id, channel_name,
   messages.length, actual_provider⟩

/-- The `(summary_text, provider_name)` state after the main-channel part
of `generate_channel_summary`: `main_summary` (reset to `None` when the
fallback chain produced nothing truthy) paired with the recorded provider;
an empty main channel records the placeholder text and the primary
provider. -/
def mainPairOf (w : World) (primary : Summarizer) (messages : List DiscordMessage)
    (channel_name : String) (prompt_type : Option String) :
    Option String × Option String :=
  if ¬ messages.isEmpty then
    (if truthyOpt (generate_summary_with_fallback w primary messages channel_name
          prompt_type).1 then
       (generate_summary_with_fallback w primary messages channel_name prompt_type).1
     else none,
     (generate_summary_with_fallback w primary messages channel_name prompt_type).2)
  else
    (some "No messages in main channel during this period.",
     some primary.provider_name)

/-- One iteration of the thread loop of `generate_channel_summary`: the
accumulator is the `thread_summaries` list paired with the current
`provider_name`; a truthy thread summary is appended, and when the main
summary is falsy the provider is overwritten with the thread's. -/
def threadStep (w : World) (primary : Summarizer) (channel_name : String)
    (prompt_type : Option String) (main_summary : Option String)
    (acc : List (String × String) × Option String)
    (td : List DiscordMessage × String) : List (String × String) × Option String :=
  if td.1.isEmpty then acc
  else
    if truthyOpt (generate_summary_with_fallback w primary td.1
        (channel_name ++ " > " ++ td.2) prompt_type).1 then
      (acc.1 ++ [(td.2, (generate_summary_with_fallback w primary td.1
          (channel_name ++ " > " ++ td.2) prompt_type).1.getD "")],
       if ¬ truthyOpt main_summary then
         (generate_summary_with_fallback w primary td.1
           (channel_name ++ " > " ++ td.2) prompt_type).2
       else acc.2)
    else acc

/-- All thread messages flattened, in thread order (the list-comprehension
`[msg for thread_msgs, _ in thread_data for msg in thread_msgs]`). -/
def threadMsgsConcat (thread_data : List (List DiscordMessage × String)) :
    List DiscordMessage :=
  thread_data.foldr (fun td acc => td.1 ++ acc) []

/-- The `combined_summary` string assembled from the main summary and the
collected `thread_summaries`. -/
def combinedOf (main_summary : Option String)
    (thread_summaries : List (String × String)) : String :=
  let combined0 := match main_summary with
    | some s => if s ≠ "" then s else ""
    | none => ""
  if ¬ thread_summaries.isEmpty then
    (if combined0 ≠ "" then combined0 ++ "\n\n## Thread Summaries\n"
     else "## Thread Summaries\n") ++
    String.join (thread_summaries.map
      (fun tc => "\n### " ++ tc.1 ++ "\n" ++ tc.2 ++ "\n"))
  else combined0

/-- `SummaryGeneratorService.generate_channel_summary`, applied to the
already-collected `(messages, channel_name, thread_data)` triple that
`collect_from_channel` returned. -/
def generate_channel_summary (w : World) (primary : Summarizer)
    (channel_id : String)
    (collected : List DiscordMessage × String × List (List DiscordMessage × String))
    (prompt_type : Option String) : Option SummaryObj :=
  match collected with
  | (messages, channel_name, thread_data) =>
    if messages.isEmpty ∧ thread_data.all (fun td => td.1.isEmpty) then none
    else
      let fold := thread_data.foldl
        (threadStep w primary channel_name prompt_type
          (mainPairOf w primary messages channel_name prompt_type).1)
        ([], (mainPairOf w primary messages channel_name prompt_type).2)
      if combinedOf (mainPairOf w primary messages channel_name prompt_type).1 fold.1
          = "" then none
      else
        some (create_summary_object primary
          (combinedOf (mainPairOf w primary messages channel_name prompt_type).1 fold.1)
          (messages ++ threadMsgsConcat thread_data)
          channel_name channel_id fold.2)

/-! ## src/services/message_collector.py and
`generate_all_channel_summaries`

`collect_from_config` stores the full `(messages, channel_name,
thread_data)` triple as each dict value (its docstring promises pairs);
both its own guild branch and `generate_all_channel_summaries` then unpack
a value into two names, which for a triple raises
`ValueError: too many values to unpack`.  The entry type records the
arity. -/

/-- What `collect_from_channel` returns for one channel. -/
def CollectTriple :=
  List DiscordMessage × String × List (List DiscordMessage × String)

/-- A value stored in the `results` dict of `collect_from_config`: a
2-tuple (guild branch) or a 3-tuple (explicit-channel branch). -/
inductive ChanEntry
  | pair (msgs : List DiscordMessage) (name : String)
  | triple (t : CollectTriple)

/-- Python's `a, b = value` on a dict value: succeeds only on a 2-tuple. -/
def unpack2 : ChanEntry → Except PyErr (List DiscordMessage × String)
  | .pair m n => .ok (m, n)
  | .triple _ => .error .valueError

/-- Python's `messages, channel_name = t` applied to the 3-tuple
`collect_from_guild` produced: always `ValueError`. -/
def unpackTripleAsPair : CollectTriple → Except PyErr (List DiscordMessage × String) :=
  fun _ => .error .valueError

/-- `DiscordReaderConfig` (config/settings.py), reader part. -/
structure ReaderConfig where
  guild_id : Option String
  channel_ids : List String
  deriving Repr

/-- `MessageCollectorService.collect_from_guild`: enumerate the guild's
channels, keep type-0 (text) channels, and collect each in turn; an
exception from any channel's collection escapes (there is no per-channel
handler). -/
def collect_from_guild (collectChannel : Option String → Except PyErr CollectTriple)
    (channels : List (Option String × Int)) : Except PyErr (List CollectTriple) :=
  let text_channels := channels.filter (fun c => c.2 = 0)
  if text_channels.isEmpty then .ok []
  else text_channels.mapM (fun c => collectChannel c.1)

/-- `MessageCollectorService.collect_from_config`.  With explicit channel
ids, each channel's triple is stored as the dict value (no per-channel
exception handler, so a raising collection escapes and later channels are
never collected).  In guild mode the per-channel results are 3-tuples but
the loop unpacks them into two names, raising `ValueError` on the first
result. -/
def collect_from_config (cfg : ReaderConfig)
    (collectChannel : Option String → Except PyErr CollectTriple)
    (guildChannels : List (Option String × Int)) :
    Except PyErr (List (String × ChanEntry)) :=
  if ¬ cfg.channel_ids.isEmpty then
    cfg.channel_ids.mapM (fun cid =>
      (collectChannel (some cid)).map (fun t => (cid, ChanEntry.triple t)))
  else
    match cfg.guild_id with
    | some _ => do
      let guild_results ← collect_from_guild collectChannel guildChannels
      let pairs ← guild_results.mapM unpackTripleAsPair
      -- Dead when `guild_results` is non-empty (the unpack raised first).
      .ok (pairs.filterMap (fun mn =>
        if mn.1.isEmpty then none
        else some ((mn.1.head?.map (fun m => m.channel_id)).getD "unknown",
                   ChanEntry.pair mn.1 mn.2)))
    | none => .ok []

/-- `SummaryGeneratorService.generate_all_channel_summaries`: collect all
configured channels, then for each entry unpack the stored value into
`(messages, channel_name)` and summarize with fallback.  There is no
`try`/`except` in this method, so the `ValueError` from unpacking a
3-tuple escapes. -/
def generate_all_channel_summaries (w : World) (primary : Summarizer)
    (cfg : ReaderConfig)
    (collectChannel : Option String → Except PyErr CollectTriple)
    (guildChannels : List (Option String × Int)) :
    Except PyErr (List (String × Option SummaryObj)) := do
  let channel_messages ← collect_from_config cfg collectChannel guildChannels
  channel_messages.mapM (fun entry => do
    let (messages, channel_name) ← unpack2 entry.2
    if messages.isEmpty then
      pure (entry.1, none)
    else
      let prompt_type := detect_prompt_type channel_name
      let (summary_text, provider_name) :=
        generate_summary_with_fallback w primary messages channel_name prompt_type
      if ¬ truthyOpt summary_text then
        pure (entry.1, none)
      else
        pure (entry.1, some (create_summary_object primary (summary_text.getD "")
          messages channel_name entry.1 provider_name)))

/-- Does this raw record carry a parseable timestamp? -/
def tsIsValid (m : RawMsg) : Bool :=
  match m.timestamp with
  | .valid _ => true
  | _ => false

/-- Is this raw record's (parseable) timestamp at or after the threshold? -/
def rawTsGe (threshold : DateTime) (m : RawMsg) : Bool :=
  match m.timestamp with
  | .valid d => ! d.ltb threshold
  | _ => false

/-- A server that answers HTTP 429 (with `retry_after = 1`) to every
attempt. -/
def always429 : Nat → AttemptRes :=
  fun _ => .resp ⟨429, some 5, some 0, 1, ""⟩

/-- A server that answers 429 with `retry_after = 2` once, then 200. -/
def once429 : Nat → AttemptRes :=
  fun n => if n = 0 then .resp ⟨429, some 5, some 0, 2, ""⟩
           else .resp ⟨200, some 5, some 0, 1, "ok"⟩

/-! ### C3 infrastructure: the successful-thread list -/

/-- The `(threadName, summaryText, provider)` triples of the threads whose
summarization succeeds, in thread order (exactly the entries the thread
loop of `generate_channel_summary` appends). -/
def threadSuccesses (w : World) (primary : Summarizer) (channel_name : String)
    (prompt_type : Option String) :
    List (List DiscordMessage × String) → List (String × String × Option String)
  | [] => []
  | td :: rest =>
    if td.1.isEmpty then threadSuccesses w primary channel_name prompt_type rest
    else if truthyOpt (generate_summary_with_fallback w primary td.1
        (channel_name ++ " > " ++ td.2) prompt_type).1 then
      (td.2,
       (generate_summary_with_fallback w primary td.1
         (channel_name ++ " > " ++ td.2) prompt_type).1.getD "",
       (generate_summary_with_fallback w primary td.1
         (channel_name ++ " > " ++ td.2) prompt_type).2)
        :: threadSuccesses w primary channel_name prompt_type rest
    else threadSuccesses w primary channel_name prompt_type rest

/-- The provider recorded after overwriting `pn` with each success's
provider in turn: the last success's provider (or `pn` if none). -/
def lastProviderOf : List (String × String × Option String) → Option String → Option String
  | [], pn => pn
  | x :: rest, _ => lastProviderOf rest x.2.2

/-- Environment for the C2 witness: Anthropic (primary) fails, DeepSeek
(fallback, key present) succeeds. -/
def wC2 : World :=
  ⟨some "dk", some "ak", fun _ _ _ => some "DS-SUM", fun _ _ _ => none⟩

/-- A second concrete message (lives in a thread). -/
def msgB : DiscordMessage :=
  ⟨"2", "hey", "bob", "8", ⟨2026, 10, 12, 10, 0, 0⟩, "c2", 0, 0, 0⟩

/-- Environment for the C3 witness: DeepSeek (primary) succeeds only on
the thread label, Anthropic is unavailable (no key). -/
def wC3 : World :=
  ⟨some "dk", none,
   fun _ cn _ => if cn = "chan > t1" then some "TS" else none,
   fun _ _ _ => none⟩

/-- Is `b` strictly older than `a` (both timestamps parseable)? -/
def rawNewer (a b : RawMsg) : Bool :=
  match a.timestamp, b.timestamp with
  | .valid da, .valid db => db.ltb da
  | _, _ => false

/-- Is the history strictly newest-first? -/
def pairwiseNewer : List RawMsg → Bool
  | [] => true
  | [_] => true
  | a :: b :: rest => rawNewer a b && pairwiseNewer (b :: rest)

/-- Timestamps of the counterexample history: 250 messages, newest first,
spanning three days, of which only the newest 50 lie within the final
day. -/
def cxTs (i : Nat) : DateTime :=
  if i < 50 then ⟨2026, 10, 11, 12, 49 - i, 0⟩
  else if i = 249 then ⟨2026, 10, 9, 1, 0, 0⟩
  else ⟨2026, 10, 10, 23 - (i - 50) / 60, 59 - (i - 50) % 60, 0⟩

/-- The `i`-th (newest-first) message of the counterexample history. -/
def cxMsg (i : Nat) : RawMsg :=
  ⟨some (toString i), "m", some ⟨some "u", some "1"⟩, .valid (cxTs i), "c", 0, 0, 0⟩

/-- The counterexample channel history. -/
def cxHist : List RawMsg := (List.range 250).map cxMsg

/-- Timestamps of the witness history: 250 messages, newest first,
spanning three days, with the 200 newest within the final day. -/
def wTs (i : Nat) : DateTime :=
  if i < 200 then ⟨2026, 10, 11, 23 - i / 60, 59 - i % 60, 0⟩
  else if i = 249 then ⟨2026, 10, 9, 1, 0, 0⟩
  else ⟨2026, 10, 10, 12, 49 - (i - 200), 0⟩

/-- The `i`-th (newest-first) message of the witness history; its id is a
run of `i` letters, so distinct indices get distinct ids. -/
def wMsg (i : Nat) : RawMsg :=
  ⟨some (String.mk (List.replicate i 'x')), "m", some ⟨some "u", some "1"⟩,
   .valid (wTs i), "c", 0, 0, 0⟩

/-- The witness channel history. -/
def wHist : List RawMsg := (List.range 250).map wMsg

/-- A concrete collected message for the C4 scenario. -/
def msgA : DiscordMessage :=
  ⟨"1", "hello", "alice", "7", ⟨2026, 10, 12, 9, 0, 0⟩, "c1", 0, 0, 0⟩

/-- A per-channel collection behaviour that succeeds on every channel. -/
def collect4 : Option String → Except PyErr CollectTriple :=
  fun _ => .ok ([msgA], "chan", [])

/-- A per-channel collection behaviour that raises for channel `c1` and
succeeds elsewhere. -/
def collect4err : Option String → Except PyErr CollectTriple :=
  fun cid => if cid = some "c1" then .error .exc else .ok ([msgA], "chan", [])

/-- An environment whose two providers both summarize successfully. -/
def w4 : World :=
  ⟨some "k", some "k", fun _ _ _ => some "S", fun _ _ _ => some "S"⟩

/-- Concrete raw record for the C9 witness. -/
def c9raw : RawMsg :=
  ⟨some "1", "hi", some ⟨some "alice", some "7"⟩,
   .valid ⟨2026, 10, 12, 9, 30, 5⟩, some "c", 0, 0, 0⟩

/-- The message `c9raw` normalizes to. -/
def c9msg : DiscordMessage :=
  ⟨"1", "hi", "alice", "7", ⟨2026, 10, 12, 9, 30, 5⟩, "c", 0, 0, 0⟩

/-! ## Theorems -/

/-- The number of page requests a paging loop issues never exceeds its
starting count plus its remaining budget. -/
theorem pageLoop_count_le (fetch : Nat → Option String → List RawMsg)
    (threshold now : DateTime) :
    ∀ fuel count last_id acc,
      (pageLoop fetch threshold now fuel count last_id acc).2 ≤ count + fuel := by
  intro fuel
  induction fuel with
  | zero => intro count last_id acc; simp [pageLoop]
  | succ k ih =>
    intro count last_id acc
    rw [pageLoop]
    split
    · exact Nat.add_le_add_left (Nat.succ_le_succ (Nat.zero_le k)) count
    · split
      · exact Nat.add_le_add_left (Nat.succ_le_succ (Nat.zero_le k)) count
      · split
        · split
          · exact Nat.add_le_add_left (Nat.succ_le_succ (Nat.zero_le k)) count
          · exact Nat.add_le_add_left (Nat.succ_le_succ (Nat.zero_le k)) count
        · split
          · exact Nat.add_le_add_left (Nat.succ_le_succ (Nat.zero_le k)) count
          · exact le_trans (ih _ _ _) (by omega)

/-- Each per-thread paging loop run by `collectThreads` issues at most 500
requests. -/
theorem collectThreads_counts_le
    (threadFetch : String → Nat → Option String → List RawMsg)
    (ids : List String) (threshold now : DateTime) :
    ∀ ths, ∀ c ∈ (collectThreads threadFetch ids threshold now ths).2, c ≤ 500 := by
  intro ths
  induction ths with
  | nil => intro c hc; simp [collectThreads] at hc
  | cons th rest ih =>
    intro c hc
    rw [collectThreads] at hc
    split at hc
    · split at hc
      · next e cnt heq =>
        have hcnt : cnt ≤ 500 := by
          have h := pageLoop_count_le (threadFetch (threadIdOf th))
            threshold now 500 0 none []
          rw [heq] at h; simpa using h
        simp at hc
        omega
      · next msgs cnt heq =>
        have hcnt : cnt ≤ 500 := by
          have h := pageLoop_count_le (threadFetch (threadIdOf th))
            threshold now 500 0 none []
          rw [heq] at h; simpa using h
        split at hc
        · next e cnts heq2 =>
          simp at hc
          rcases hc with rfl | hc
          · exact hcnt
          · have h := ih c; rw [heq2] at h; exact h hc
        · next tds cnts heq2 =>
          simp at hc
          rcases hc with rfl | hc
          · exact hcnt
          · have h := ih c; rw [heq2] at h; exact h hc
    · exact ih c hc

/-- C5: for every channel, every page source (even an adversarial one
serving infinitely many non-empty pages), and every configuration, the
number of message-page requests `collect_messages` issues for the main
channel never exceeds 500, and the number issued for each collected thread
never exceeds 500; the collection loop therefore always terminates. -/
theorem collect_messages_request_cap (channel_id : String)
    (channelInfo : Option (Option String))
    (mainFetch : Nat → Option String → List RawMsg)
    (threadFetch : String → Nat → Option String → List RawMsg)
    (cfgThreadIds : Option (Option (List String)))
    (activeThreads : Option (List RawThread))
    (time_threshold now : DateTime) :
    (collect_messages channel_id channelInfo mainFetch threadFetch cfgThreadIds
        activeThreads time_threshold now).mainRequests ≤ 500 ∧
    ∀ c ∈ (collect_messages channel_id channelInfo mainFetch threadFetch cfgThreadIds
        activeThreads time_threshold now).threadRequests, c ≤ 500 := by
  unfold collect_messages
  split
  · next mainCount heq =>
    have hcnt : mainCount ≤ 500 := by
      have h := pageLoop_count_le mainFetch time_threshold now 500 0 none []
      rw [heq] at h; simpa using h
    exact ⟨hcnt, by intro c hc; simp at hc⟩
  · next msgs mainCount heq =>
    have hcnt : mainCount ≤ 500 := by
      have h := pageLoop_count_le mainFetch time_threshold now 500 0 none []
      rw [heq] at h; simpa using h
    split
    · exact ⟨hcnt, by intro c hc; simp at hc⟩
    · next cfg =>
      split
      · exact ⟨hcnt, by intro c hc; simp at hc⟩
      · split
        · exact ⟨hcnt, by intro c hc; simp at hc⟩
        · next threads =>
          split
          · next thCounts heq2 =>
            refine ⟨hcnt, ?_⟩
            intro c hc
            have h := collectThreads_counts_le threadFetch (cfg.getD [])
              time_threshold now threads c
            rw [heq2] at h
            exact h (by simpa using hc)
          · next tds thCounts heq2 =>
            refine ⟨hcnt, ?_⟩
            intro c hc
            have h := collectThreads_counts_le threadFetch (cfg.getD [])
              time_threshold now threads c
            rw [heq2] at h
            exact h (by simpa using hc)

/-- C6: `_make_request` does sleep for the server's `retry_after` and
transparently retry (second conjunct), but the retry recursion is
unbounded: against a server that answers 429 on every attempt, no
recursion budget whatsoever suffices for the call to return — the Python
code never terminates on that input, contradicting the claimed retry
bound. -/
theorem make_request_429_unbounded :
    (∀ fuel n st, (make_request always429 (fun _ => 0) fuel n st).1 = none) ∧
    (make_request once429 (fun _ => 0) 2 0 ⟨5, 0⟩
      = (some (some "ok"), ⟨5, 0⟩, [2])) := by
  constructor
  · intro fuel
    induction fuel with
    | zero => intro n st; rfl
    | succ k ih =>
      intro n st
      rw [make_request]
      exact ih (n + 1) ⟨5, 0⟩
  · rfl

/-- C7 counterexample: with `remaining = 1`, `resetAt = 0` and `now = 10`
(reset long past), `_handle_rate_limit` sleeps 0.5 s, whereas the claimed
formula `max(0, resetAt + 0.5 - now)` is 0 (no sleep). -/
theorem handle_rate_limit_claim_cx :
    handle_rate_limit ⟨1, 0⟩ 10 = 1/2 ∧
    max (0 : ℚ) (0 + 1/2 - 10) = 0 ∧ (1/2 : ℚ) ≠ 0 := by
  refine ⟨?_, by norm_num, by norm_num⟩
  norm_num [handle_rate_limit]

/-- C7 amended: when `remainingRequests ≤ 1` the fetcher sleeps for
exactly `max(0, resetAt - now) + 0.5` — the 0.5 s pad is added after the
clamp, so at least half a second is always slept, even when `resetAt` is
already in the past; when `remainingRequests > 1` no sleep occurs. -/
theorem handle_rate_limit_amended (st : RateState) (now : ℚ) :
    handle_rate_limit st now =
      if st.remaining ≤ 1 then max 0 (st.reset - now) + 1/2 else 0 := by
  have hpos : (0 : ℚ) < max 0 (st.reset - now) + 1/2 :=
    add_pos_of_nonneg_of_pos (le_max_left 0 _) (by norm_num)
  unfold handle_rate_limit
  by_cases hr : st.remaining ≤ 1
  · rw [if_pos hr, if_pos hr]
    exact if_pos hpos
  · rw [if_neg hr, if_neg hr]

/-- C8 counterexample: channels with technical terms (`"dev-channel"`) or
gaming terms (`"game-night"`) do not select dedicated specialized prompts:
`_detect_prompt_type` produces `'technical'`/`'gaming'`, but those keys do
not exist in `SPECIALIZED_PROMPTS`, so `get_prompts` falls through to the
channel-keyword match and returns the general-purpose prompt for both —
there is no "one specialized prompt per topic" for technical or gaming. -/
theorem prompt_selection_claim_cx :
    detect_prompt_type "dev-channel" = some "technical" ∧
    detect_prompt_type "game-night" = some "gaming" ∧
    initPrompts.lookup "technical" = none ∧
    initPrompts.lookup "gaming" = none ∧
    (get_prompts initPrompts (some "dev-channel")
      (detect_prompt_type "dev-channel") none none).1 = generalPair ∧
    (get_prompts initPrompts (some "game-night")
      (detect_prompt_type "game-night") none none).1 = generalPair ∧
    defiPair ≠ generalPair ∧ cryptoPair ≠ generalPair ∧ defiPair ≠ cryptoPair := by
  set_option maxRecDepth 20000 in
  refine ⟨?_, ?_, ?_, ?_, ?_, ?_, ?_, ?_, ?_⟩ <;> decide

/-- C8 amended: an explicit `promptType` wins only when it names a prompt
actually present in `SPECIALIZED_PROMPTS` (`'general'`, `'defi'`,
`'crypto'`); otherwise — including the detected-but-undefined types
`'technical'` and `'gaming'` — the channel label is keyword-matched:
finance/yield-farming terms select the defi prompt, crypto/trading/market
terms the crypto prompt, and everything else (technical and gaming labels
included) the general-purpose prompt.  `_detect_prompt_type` only ever
produces `'technical'`, `'gaming'` or nothing. -/
theorem prompt_selection_amended (cn : String) (pt : Option String) :
    (pt = some "general" →
      (get_prompts initPrompts (some cn) pt none none).1 = generalPair) ∧
    (pt = some "defi" →
      (get_prompts initPrompts (some cn) pt none none).1 = defiPair) ∧
    (pt = some "crypto" →
      (get_prompts initPrompts (some cn) pt none none).1 = cryptoPair) ∧
    ((pt = none ∨ pt = some "technical" ∨ pt = some "gaming") →
      (get_prompts initPrompts (some cn) pt none none).1 =
        (if cn ≠ "" then
          (if defiKeywords.any (fun term => pyIn term (pyLower cn)) then defiPair
           else if cryptoKeywords.any (fun term => pyIn term (pyLower cn)) then cryptoPair
           else generalPair)
         else generalPair)) ∧
    (detect_prompt_type cn = none ∨ detect_prompt_type cn = some "technical" ∨
      detect_prompt_type cn = some "gaming") := by
  refine ⟨?_, ?_, ?_, ?_, ?_⟩
  · rintro rfl; rfl
  · rintro rfl; rfl
  · rintro rfl; rfl
  · intro hpt
    by_cases hcn : cn = ""
    · subst hcn
      rcases hpt with rfl | rfl | rfl <;> rfl
    · have hkey : selectKey initPrompts (some cn) pt =
          (if defiKeywords.any (fun term => pyIn term (pyLower cn)) then "defi"
           else if cryptoKeywords.any (fun term => pyIn term (pyLower cn)) then "crypto"
           else "general") := by
        rcases hpt with rfl | rfl | rfl <;>
          simp [selectKey, truthyOpt, hcn, initPrompts]
      have hL : (get_prompts initPrompts (some cn) pt none none).1
          = (initPrompts.lookup (selectKey initPrompts (some cn) pt)).getD ⟨"", ""⟩ := rfl
      rw [hL, hkey, if_pos hcn]
      by_cases hd : defiKeywords.any (fun term => pyIn term (pyLower cn))
      · rw [if_pos hd, if_pos hd]; rfl
      · rw [if_neg hd, if_neg hd]
        by_cases hc : cryptoKeywords.any (fun term => pyIn term (pyLower cn))
        · rw [if_pos hc, if_pos hc]; rfl
        · rw [if_neg hc, if_neg hc]; rfl
  · by_cases h1 : ["dev", "code", "programming", "tech", "engineering"].any
        (fun tech => pyIn tech (pyLower cn))
    · exact Or.inr (Or.inl (by simp [detect_prompt_type, h1]))
    · by_cases h2 : ["game", "gaming", "play", "stream"].any
          (fun game => pyIn game (pyLower cn))
      · exact Or.inr (Or.inr (by simp [detect_prompt_type, h1, h2]))
      · exact Or.inl (by simp [detect_prompt_type, h1, h2])

set_option maxRecDepth 20000 in
/-- C8 witness: a technical-term channel with detected type `'technical'`
falls through to the channel-keyword match (here the defi keywords). -/
theorem prompt_selection_amended_witness :
    (get_prompts initPrompts (some "yield-zone") (some "technical") none none).1
      = defiPair := by
  have h := (prompt_selection_amended "yield-zone" (some "technical")).2.2.2.1
    (Or.inr (Or.inl rfl))
  rw [h]; decide

/-- C10: supplying an override to `get_prompts` writes it into the shared
class-level `SPECIALIZED_PROMPTS` entry that the call selected, so every
subsequent call (even with no overrides) selecting the same entry returns
the overridden text instead of the original template. -/
theorem get_prompts_override_mutates (o : String) :
    ((get_prompts initPrompts none (some "defi") (some o) none).1).system_prompt = o ∧
    ((get_prompts initPrompts none (some "defi") (some o) none).2).lookup "defi"
      = some ⟨o, DEFI_USER_PROMPT⟩ ∧
    ((get_prompts ((get_prompts initPrompts none (some "defi") (some o) none).2)
        (some "yield-chat") none none none).1).system_prompt = o ∧
    (get_prompts initPrompts (some "yield-chat") none none none).1 = defiPair :=
  ⟨rfl, rfl, rfl, rfl⟩

/-- C9: a raw record with non-empty content and a present author username
that normalizes successfully yields a message whose canonical formatted
line is literally `"[" ++ time ++ "] " ++ author ++ ": " ++ content`, with
author and content reproduced verbatim. -/
theorem convert_roundtrip (raw : RawMsg) (now : DateTime) (u : String)
    (m : DiscordMessage)
    (hu : (raw.author.getD ⟨none, none⟩).username = some u)
    (hc : convert_to_message_model raw now = some m) :
    m.formatted_content = "[" ++ m.formatted_time ++ "] " ++ u ++ ": " ++ raw.content ∧
    m.username = u ∧ m.content = raw.content := by
  unfold convert_to_message_model at hc
  by_cases hemp : raw.content = ""
  · simp [hemp] at hc
  · simp only [hemp, if_neg, not_false_eq_true] at hc
    rcases hts : raw.timestamp with _ | d | _ <;> rw [hts] at hc
    · rw [Option.some_inj] at hc
      subst hc
      refine ⟨?_, ?_, rfl⟩ <;> simp [DiscordMessage.formatted_content, hu]
    · rw [Option.some_inj] at hc
      subst hc
      refine ⟨?_, ?_, rfl⟩ <;> simp [DiscordMessage.formatted_content, hu]
    · simp at hc

/-- A string with positive length is not the empty string. -/
theorem str_ne_empty_of_pos (s : String) (h : 0 < s.length) : s ≠ "" := by
  intro heq; subst heq; simp at h

/-- When the primary summarizer yields `None` and the other provider's key
is available and its summary is truthy, `_generate_summary_with_fallback`
returns the fallback text and the fallback provider's name. -/
theorem gwf_fallback_eq (w : World) (p : LLMProvider)
    (messages : List DiscordMessage) (channel_name : String)
    (prompt_type : Option String) (t : String)
    (hprim : (create_summarizer w p).gen messages channel_name prompt_type = none)
    (hkey : truthyOpt (keyOf w p.other) = true)
    (hfb : (create_summarizer w p.other).gen messages channel_name prompt_type = some t)
    (ht : t ≠ "") :
    generate_summary_with_fallback w (create_summarizer w p) messages channel_name
        prompt_type
      = (some t, some ((create_summarizer w p.other).provider_name)) := by
  cases p
  · have hpy : pyIn "Anthropic" "DeepSeekSummarizer" = false := by decide
    simp only [create_summarizer, LLMProvider.other, keyOf] at hprim hkey hfb ⊢
    unfold generate_summary_with_fallback
    simp [hprim, truthyOpt, hpy, create_summarizer, keyOf, hfb, ht]
    simpa [truthyOpt] using hkey
  · have hpy : pyIn "Anthropic" "AnthropicSummarizer" = true := by decide
    simp only [create_summarizer, LLMProvider.other, keyOf] at hprim hkey hfb ⊢
    unfold generate_summary_with_fallback
    simp [hprim, truthyOpt, hpy, create_summarizer, keyOf, hfb, ht]
    simpa [truthyOpt] using hkey

/-- When the main summary is truthy, the thread loop never changes the
recorded provider. -/
theorem foldl_threadStep_snd_of_truthy (w : World) (primary : Summarizer)
    (channel_name : String) (prompt_type : Option String)
    (main_summary : Option String) (hmt : truthyOpt main_summary = true) :
    ∀ (tds : List (List DiscordMessage × String))
      (acc : List (String × String) × Option String),
      (tds.foldl (threadStep w primary channel_name prompt_type main_summary)
        acc).2 = acc.2 := by
  intro tds
  induction tds with
  | nil => intro acc; rfl
  | cons td rest ih =>
    intro acc
    rw [List.foldl_cons, ih]
    unfold threadStep
    split
    · rfl
    · split
      · simp [hmt]
      · rfl

/-- Unfolding equation of `generate_channel_summary` on an explicit
triple. -/
theorem generate_channel_summary_eq (w : World) (primary : Summarizer)
    (channel_id : String) (messages : List DiscordMessage) (channel_name : String)
    (thread_data : List (List DiscordMessage × String)) (prompt_type : Option String) :
    generate_channel_summary w primary channel_id
        (messages, channel_name, thread_data) prompt_type
      = if messages.isEmpty ∧ thread_data.all (fun td => td.1.isEmpty) then none
        else if combinedOf (mainPairOf w primary messages channel_name prompt_type).1
            (thread_data.foldl
              (threadStep w primary channel_name prompt_type
                (mainPairOf w primary messages channel_name prompt_type).1)
              ([], (mainPairOf w primary messages channel_name prompt_type).2)).1
            = "" then none
        else some (create_summary_object primary
          (combinedOf (mainPairOf w primary messages channel_name prompt_type).1
            (thread_data.foldl
              (threadStep w primary channel_name prompt_type
                (mainPairOf w primary messages channel_name prompt_type).1)
              ([], (mainPairOf w primary messages channel_name prompt_type).2)).1)
          (messages ++ threadMsgsConcat thread_data) channel_name channel_id
          (thread_data.foldl
            (threadStep w primary channel_name prompt_type
              (mainPairOf w primary messages channel_name prompt_type).1)
            ([], (mainPairOf w primary messages channel_name prompt_type).2)).2) := rfl

/-- C2: whenever the main channel's batch is non-empty, the primary
summarizer returns absent on it, and the other provider's key is present
and its summary is non-absent, `generate_channel_summary` returns a
summary (not absent) whose `provider_name` is the fallback provider's
name — regardless of the thread data. -/
theorem fallback_provider_in_channel_summary (w : World) (p : LLMProvider)
    (channel_id channel_name : String) (messages : List DiscordMessage)
    (thread_data : List (List DiscordMessage × String))
    (prompt_type : Option String) (t : String)
    (hm : messages ≠ [])
    (hprim : (create_summarizer w p).gen messages channel_name prompt_type = none)
    (hkey : truthyOpt (keyOf w p.other) = true)
    (hfb : (create_summarizer w p.other).gen messages channel_name prompt_type = some t)
    (ht : t ≠ "") :
    ((generate_channel_summary w (create_summarizer w p) channel_id
        (messages, channel_name, thread_data) prompt_type).map
      (fun s => s.provider_name))
      = some ((create_summarizer w p.other).provider_name) := by
  have hgwf := gwf_fallback_eq w p messages channel_name prompt_type t hprim hkey hfb ht
  have hne : messages.isEmpty = false := by
    cases messages with
    | nil => exact absurd rfl hm
    | cons a l => rfl
  have hmain : mainPairOf w (create_summarizer w p) messages channel_name prompt_type
      = (some t, some ((create_summarizer w p.other).provider_name)) := by
    unfold mainPairOf
    rw [if_pos (by simp [hne]), hgwf]
    simp [truthyOpt, ht]
  have hsnd := foldl_threadStep_snd_of_truthy w (create_summarizer w p) channel_name
    prompt_type (some t) (by simp [truthyOpt, ht]) thread_data
    ([], some ((create_summarizer w p.other).provider_name))
  have hfbne : (create_summarizer w p.other).provider_name ≠ "" := by
    cases p
    · rw [show (create_summarizer w LLMProvider.deepseek.other).provider_name
          = "Anthropic" from rfl]
      decide
    · rw [show (create_summarizer w LLMProvider.anthropic.other).provider_name
          = "DeepSeek" from rfl]
      decide
  have hcomb : ∀ ts : List (String × String), combinedOf (some t) ts ≠ "" := by
    intro ts
    unfold combinedOf
    simp only [ht, if_pos, ne_eq, not_false_eq_true]
    split
    · apply str_ne_empty_of_pos
      rw [String.length_append, String.length_append]
      have h1 : 0 < ("\n\n## Thread Summaries\n").length := by decide
      omega
    · exact ht
  rw [generate_channel_summary_eq, if_neg (by simp [hne]), hmain]
  rw [if_neg (hcomb _)]
  rw [Option.map_some']
  rw [Option.some_inj]
  unfold create_summary_object
  rw [hsnd]
  simp [hfbne]

/-- When the main summary is falsy, the thread loop accumulates exactly
the successful threads' `(name, text)` pairs and records the last
success's provider. -/
theorem foldl_threadStep_spec (w : World) (primary : Summarizer)
    (channel_name : String) (prompt_type : Option String)
    (main_summary : Option String) (hmt : truthyOpt main_summary = false) :
    ∀ (tds : List (List DiscordMessage × String))
      (acc : List (String × String)) (pn : Option String),
      tds.foldl (threadStep w primary channel_name prompt_type main_summary) (acc, pn)
        = (acc ++ (threadSuccesses w primary channel_name prompt_type tds).map
            (fun x => (x.1, x.2.1)),
           lastProviderOf (threadSuccesses w primary channel_name prompt_type tds) pn) := by
  intro tds
  induction tds with
  | nil => intro acc pn; simp [threadSuccesses, lastProviderOf]
  | cons td rest ih =>
    intro acc pn
    rw [List.foldl_cons]
    by_cases h1 : td.1.isEmpty
    · have hstep : threadStep w primary channel_name prompt_type main_summary
          (acc, pn) td = (acc, pn) := by
        unfold threadStep; simp [h1]
      have hsucc : threadSuccesses w primary channel_name prompt_type (td :: rest)
          = threadSuccesses w primary channel_name prompt_type rest := by
        conv_lhs => rw [threadSuccesses]
        simp [h1]
      rw [hstep, ih, hsucc]
    · by_cases h2 : truthyOpt (generate_summary_with_fallback w primary td.1
          (channel_name ++ " > " ++ td.2) prompt_type).1
      · have hstep : threadStep w primary channel_name prompt_type main_summary
            (acc, pn) td
            = (acc ++ [(td.2, (generate_summary_with_fallback w primary td.1
                (channel_name ++ " > " ++ td.2) prompt_type).1.getD "")],
               (generate_summary_with_fallback w primary td.1
                 (channel_name ++ " > " ++ td.2) prompt_type).2) := by
          unfold threadStep; simp [h1, h2, hmt]
        have hsucc : threadSuccesses w primary channel_name prompt_type (td :: rest)
            = (td.2,
               (generate_summary_with_fallback w primary td.1
                 (channel_name ++ " > " ++ td.2) prompt_type).1.getD "",
               (generate_summary_with_fallback w primary td.1
                 (channel_name ++ " > " ++ td.2) prompt_type).2)
                :: threadSuccesses w primary channel_name prompt_type rest := by
          conv_lhs => rw [threadSuccesses]
          simp [h1, h2]
        rw [hstep, ih, hsucc]
        simp [lastProviderOf]
      · have hstep : threadStep w primary channel_name prompt_type main_summary
            (acc, pn) td = (acc, pn) := by
          unfold threadStep; simp [h1, h2]
        have hsucc : threadSuccesses w primary channel_name prompt_type (td :: rest)
            = threadSuccesses w primary channel_name prompt_type rest := by
          conv_lhs => rw [threadSuccesses]
          simp [h1, h2]
        rw [hstep, ih, hsucc]

/-- A truthy fallback-chain result always records a provider, and that
provider is one of the two constructed summarizers'. -/
theorem gwf_snd_shape (w : World) (p : LLMProvider) (m : List DiscordMessage)
    (cn : String) (pt : Option String)
    (h : truthyOpt (generate_summary_with_fallback w (create_summarizer w p) m cn pt).1
      = true) :
    ∃ q : LLMProvider,
      (generate_summary_with_fallback w (create_summarizer w p) m cn pt).2
        = some ((create_summarizer w q).provider_name) := by
  unfold generate_summary_with_fallback at h ⊢
  by_cases h1 : truthyOpt ((create_summarizer w p).gen m cn pt)
  · exact ⟨p, by simp [h1]⟩
  · simp only [h1, Bool.false_eq_true, if_neg, not_false_eq_true] at h ⊢
    by_cases hk : truthyOpt (keyOf w (if pyIn "Anthropic" (create_summarizer w p).className
        then LLMProvider.deepseek else LLMProvider.anthropic))
    · simp only [hk, not_true_eq_false, Bool.true_eq_false, if_neg, not_false_eq_true,
        if_false] at h ⊢
      by_cases hf : truthyOpt ((create_summarizer w
          (if pyIn "Anthropic" (create_summarizer w p).className
           then LLMProvider.deepseek else LLMProvider.anthropic)).gen m cn pt)
      · refine ⟨(if pyIn "Anthropic" (create_summarizer w p).className
            then LLMProvider.deepseek else LLMProvider.anthropic), ?_⟩
        simp [hf]
      · rw [if_neg hf] at h
        simp [truthyOpt] at h
    · rw [if_pos hk] at h
      simp [truthyOpt] at h

/-- Every recorded success provider is a constructed summarizer's name. -/
theorem threadSuccesses_snd_shape (w : World) (p : LLMProvider)
    (channel_name : String) (prompt_type : Option String) :
    ∀ (tds : List (List DiscordMessage × String)) x,
      x ∈ threadSuccesses w (create_summarizer w p) channel_name prompt_type tds →
      ∃ q : LLMProvider, x.2.2 = some ((create_summarizer w q).provider_name) := by
  intro tds
  induction tds with
  | nil => intro x hx; simp [threadSuccesses] at hx
  | cons td rest ih =>
    intro x hx
    unfold threadSuccesses at hx
    by_cases h1 : td.1.isEmpty
    · simp only [h1, if_pos] at hx
      exact ih x hx
    · simp only [h1, Bool.false_eq_true, if_neg, not_false_eq_true] at hx
      by_cases h2 : truthyOpt (generate_summary_with_fallback w (create_summarizer w p)
          td.1 (channel_name ++ " > " ++ td.2) prompt_type).1
      · simp only [h2, if_pos] at hx
        rcases List.mem_cons.mp hx with rfl | hx
        · exact gwf_snd_shape w p td.1 (channel_name ++ " > " ++ td.2) prompt_type h2
        · exact ih x hx
      · simp only [h2, Bool.false_eq_true, if_neg, not_false_eq_true] at hx
        exact ih x hx

/-- `lastProviderOf` is the last element's provider when the list is
non-empty. -/
theorem lastProviderOf_eq_getLast :
    ∀ (S : List (String × String × Option String)) (h : S ≠ []) (pn : Option String),
      lastProviderOf S pn = (S.getLast h).2.2 := by
  intro S
  induction S with
  | nil => intro h; exact absurd rfl h
  | cons x rest ih =>
    intro h pn
    cases rest with
    | nil => rfl
    | cons y tl =>
      rw [lastProviderOf, ih (List.cons_ne_nil y tl) x.2.2,
        List.getLast_cons (List.cons_ne_nil y tl)]

/-- C3: when the main channel has messages but its fallback chain fails
entirely while at least one thread's summarization succeeds, the summary
is present, its content is the `"## Thread Summaries"` section (one
`"### {threadName}"` subsection per successful thread, in order, failed
threads omitted) with no main-summary preamble before it, and its
`provider_name` is the provider recorded for the last successful thread. -/
theorem thread_only_summary (w : World) (p : LLMProvider)
    (channel_id channel_name : String) (messages : List DiscordMessage)
    (thread_data : List (List DiscordMessage × String)) (prompt_type : Option String)
    (hm : messages ≠ [])
    (hfail : generate_summary_with_fallback w (create_summarizer w p) messages
      channel_name prompt_type = (none, none))
    (hS : threadSuccesses w (create_summarizer w p) channel_name prompt_type
      thread_data ≠ []) :
    ((generate_channel_summary w (create_summarizer w p) channel_id
        (messages, channel_name, thread_data) prompt_type).map (fun s => s.content))
      = some ("## Thread Summaries\n" ++ String.join
          ((threadSuccesses w (create_summarizer w p) channel_name prompt_type
            thread_data).map
            (fun x => "\n### " ++ x.1 ++ "\n" ++ x.2.1 ++ "\n"))) ∧
    ((generate_channel_summary w (create_summarizer w p) channel_id
        (messages, channel_name, thread_data) prompt_type).map
      (fun s => s.provider_name))
      = ((threadSuccesses w (create_summarizer w p) channel_name prompt_type
          thread_data).getLast hS).2.2 := by
  have hne : messages.isEmpty = false := by
    cases messages with
    | nil => exact absurd rfl hm
    | cons a l => rfl
  have hmain : mainPairOf w (create_summarizer w p) messages channel_name prompt_type
      = (none, none) := by
    unfold mainPairOf
    rw [if_pos (by simp [hne]), hfail]
    simp [truthyOpt]
  have hfold := foldl_threadStep_spec w (create_summarizer w p) channel_name
    prompt_type none rfl thread_data [] none
  have hmapne : (threadSuccesses w (create_summarizer w p) channel_name prompt_type
      thread_data).map (fun x => (x.1, x.2.1)) ≠ [] := by
    simpa using hS
  have hcombval : combinedOf none
      ((threadSuccesses w (create_summarizer w p) channel_name prompt_type
        thread_data).map (fun x => (x.1, x.2.1)))
      = "## Thread Summaries\n" ++ String.join
          ((threadSuccesses w (create_summarizer w p) channel_name prompt_type
            thread_data).map
            (fun x => "\n### " ++ x.1 ++ "\n" ++ x.2.1 ++ "\n")) := by
    unfold combinedOf
    rw [if_pos (by simpa using hmapne)]
    simp only [List.map_map]
    rfl
  have hcombne : combinedOf none
      ((threadSuccesses w (create_summarizer w p) channel_name prompt_type
        thread_data).map (fun x => (x.1, x.2.1))) ≠ "" := by
    rw [hcombval]
    apply str_ne_empty_of_pos
    rw [String.length_append]
    have h1 : 0 < ("## Thread Summaries\n").length := by decide
    omega
  have hlast := lastProviderOf_eq_getLast
    (threadSuccesses w (create_summarizer w p) channel_name prompt_type thread_data)
    hS none
  have hshape := threadSuccesses_snd_shape w p channel_name prompt_type thread_data
    ((threadSuccesses w (create_summarizer w p) channel_name prompt_type
      thread_data).getLast hS)
    (List.getLast_mem hS)
  rcases hshape with ⟨q, hq⟩
  have hqne : (create_summarizer w q).provider_name ≠ "" := by
    cases q
    · rw [show (create_summarizer w LLMProvider.deepseek).provider_name
          = "DeepSeek" from rfl]
      decide
    · rw [show (create_summarizer w LLMProvider.anthropic).provider_name
          = "Anthropic" from rfl]
      decide
  rw [generate_channel_summary_eq, if_neg (by simp [hne]), hmain]
  rw [hfold]
  simp only [List.nil_append]
  rw [if_neg hcombne]
  constructor
  · rw [Option.map_some']
    rw [Option.some_inj]
    exact hcombval
  · rw [Option.map_some']
    unfold create_summary_object
    rw [hlast, hq]
    simp [hqne]

/-- C2 witness: a concrete run in which the primary (Anthropic) returns
absent and the summary comes back with the fallback provider's name. -/
theorem fallback_provider_in_channel_summary_witness :
    ((generate_channel_summary wC2 (create_summarizer wC2 .anthropic) "cid"
        ([msgB], "chan", []) none).map (fun s => s.provider_name))
      = some "DeepSeek" :=
  fallback_provider_in_channel_summary wC2 .anthropic "cid" "chan" [msgB] [] none
    "DS-SUM" (by decide) rfl rfl rfl (by decide)

/-- C3 witness: main-channel summarization fails entirely, the single
thread succeeds, and the summary is exactly the thread section with the
thread's provider. -/
theorem thread_only_summary_witness :
    ((generate_channel_summary wC3 (create_summarizer wC3 .deepseek) "cid"
        ([msgB], "chan", [([msgB], "t1")]) none).map (fun s => s.content))
      = some "## Thread Summaries\n\n### t1\nTS\n" ∧
    ((generate_channel_summary wC3 (create_summarizer wC3 .deepseek) "cid"
        ([msgB], "chan", [([msgB], "t1")]) none).map (fun s => s.provider_name))
      = some "DeepSeek" :=
  thread_only_summary wC3 .deepseek "cid" "chan" [msgB] [([msgB], "t1")] none
    (by decide) (by decide) (by decide)

/-! ### C1 infrastructure: the paging loop over a message history -/

/-- On a batch of parseable messages, the straddling-page branch keeps
exactly the conversions of the at-or-after-threshold messages. -/
theorem straddleKeep_spec (threshold now : DateTime) :
    ∀ l : List RawMsg, (∀ m ∈ l, tsIsValid m) →
      straddleKeep threshold now l
        = .ok (convertAll (l.filter (rawTsGe threshold)) now) := by
  intro l
  induction l with
  | nil => intro h; rfl
  | cons m rest ih =>
    intro h
    have hm : tsIsValid m := h m (List.mem_cons_self m rest)
    have hrest := ih (fun x hx => h x (List.mem_cons_of_mem m hx))
    rcases hts : m.timestamp with _ | d | _
    · simp [tsIsValid, hts] at hm
    · rw [straddleKeep, hts]
      simp only [loopTs]
      rw [hrest]
      by_cases hlt : d.ltb threshold
      · rw [List.filter_cons]
        simp [rawTsGe, hts, hlt, convertAll]
      · rw [List.filter_cons]
        simp only [rawTsGe, hts, hlt, Bool.not_false, if_pos]
        cases hc : convert_to_message_model m now with
        | none => simp [convertAll, hc, hlt]
        | some msg => simp [convertAll, hc, hlt]
    · simp [tsIsValid, hts] at hm

/-- Dropping while the id differs lands exactly on the unique occurrence
of the id. -/
theorem dropWhile_id_spec (i : String) :
    ∀ (xs ys : List RawMsg) (x : RawMsg), (∀ m ∈ xs, m.id ≠ some i) →
      x.id = some i →
      List.dropWhile (fun m => decide (m.id ≠ some i)) (xs ++ x :: ys) = x :: ys := by
  intro xs
  induction xs with
  | nil =>
    intro ys x _ hx
    rw [List.nil_append, List.dropWhile_cons]
    simp [hx]
  | cons m xs' ih =>
    intro ys x hne hx
    have hm : m.id ≠ some i := hne m (List.mem_cons_self m xs')
    rw [List.cons_append, List.dropWhile_cons, if_pos (by simp [hm])]
    exact ih ys x (fun a ha => hne a (List.mem_cons_of_mem m ha)) hx

/-- Paging "before" the id of a message with a unique id serves the next
(up to) 100 messages after its position. -/
theorem fetchOf_after (xs ys : List RawMsg) (x : RawMsg) (i : String) (c : Nat)
    (hnodup : ((xs ++ x :: ys).map RawMsg.id).Nodup) (hx : x.id = some i) :
    fetchOf (xs ++ x :: ys) c (some i) = ys.take 100 := by
  have hne : ∀ m ∈ xs, m.id ≠ some i := by
    intro m hm heq
    rw [List.map_append] at hnodup
    have hdisj := List.disjoint_of_nodup_append hnodup
    have h1 : m.id ∈ xs.map RawMsg.id := List.mem_map_of_mem _ hm
    have h2 : x.id ∈ (x :: ys).map RawMsg.id :=
      List.mem_map_of_mem _ (List.mem_cons_self x ys)
    have hmx : m.id = x.id := by rw [heq, hx]
    exact hdisj h1 (hmx ▸ h2)
  show (((xs ++ x :: ys).dropWhile (fun m => decide (m.id ≠ some i))).drop 1).take 100
      = ys.take 100
  rw [dropWhile_id_spec i xs ys x hne hx]
  rfl

/-- One non-straddling iteration of the paging loop: keep the whole page,
advance the before-id, count one request. -/
theorem pageLoop_step_full (fetch : Nat → Option String → List RawMsg)
    (threshold now : DateTime) (fuel count : Nat) (last_id : Option String)
    (acc : List DiscordMessage) (batch : List RawMsg) (lm : RawMsg)
    (d : DateTime) (i : String)
    (hb : fetch count last_id = batch)
    (hlast : batch.getLast? = some lm)
    (hts : lm.timestamp = TsField.valid d)
    (hlt : d.ltb threshold = false)
    (hid : lm.id = some i) :
    pageLoop fetch threshold now (fuel + 1) count last_id acc
      = pageLoop fetch threshold now fuel (count + 1) (some i)
          (acc ++ convertAll batch now) := by
  rw [pageLoop]
  simp only [hb, hlast, loopTs, hts, loopId, hid, hlt, Bool.false_eq_true,
    if_neg, not_false_eq_true]

/-- The straddling iteration of the paging loop: keep only the
at-or-after-threshold part of the page and stop. -/
theorem pageLoop_step_straddle (fetch : Nat → Option String → List RawMsg)
    (threshold now : DateTime) (fuel count : Nat) (last_id : Option String)
    (acc : List DiscordMessage) (batch : List RawMsg) (lm : RawMsg) (d : DateTime)
    (hb : fetch count last_id = batch)
    (hlast : batch.getLast? = some lm)
    (hts : lm.timestamp = TsField.valid d)
    (hlt : d.ltb threshold = true)
    (hvalid : ∀ m ∈ batch, tsIsValid m) :
    pageLoop fetch threshold now (fuel + 1) count last_id acc
      = (.ok (acc ++ convertAll (batch.filter (rawTsGe threshold)) now), count + 1) := by
  rw [pageLoop]
  simp only [hb, hlast, loopTs, hts, hlt, if_pos]
  rw [straddleKeep_spec threshold now batch hvalid]

/-- C1 counterexample: a channel whose source holds 250 well-formed
messages spanning 3 days (newest first, newest at 2026-10-11 12:49,
oldest at 2026-10-09 01:00, `now` = 2026-10-12 00:00), evaluated at the
program's actual state (`self.config` is never assigned, embedded as
`cfgThreadIds = none`).  `collect_messages` with `days = 1` issues exactly
ONE page request, not at least three — the very first page already
straddles the one-day threshold — and returns NO messages although 50
lie within the window: the missing-attribute `AttributeError` is caught
by the channel-level `except`, which discards the collection.  Both the
claim's "issues at least 3 page requests" and its "returns exactly the
messages with timestamp at or after now minus 1 day" are false for this
channel. -/
theorem collect_messages_window_claim_cx :
    cxHist.length = 250 ∧
    pairwiseNewer cxHist = true ∧
    cxHist.head?.map (fun m => m.timestamp)
      = some (.valid ⟨2026, 10, 11, 12, 49, 0⟩) ∧
    cxHist.getLast?.map (fun m => m.timestamp)
      = some (.valid ⟨2026, 10, 9, 1, 0, 0⟩) ∧
    (collect_messages "c1" (some (some "chan")) (fetchOf cxHist)
        (fun _ _ _ => []) none none
        ⟨2026, 10, 11, 0, 0, 0⟩ ⟨2026, 10, 12, 0, 0, 0⟩).mainRequests = 1 ∧
    (collect_messages "c1" (some (some "chan")) (fetchOf cxHist)
        (fun _ _ _ => []) none none
        ⟨2026, 10, 11, 0, 0, 0⟩ ⟨2026, 10, 12, 0, 0, 0⟩).messages = [] ∧
    convertAll (cxHist.filter (rawTsGe ⟨2026, 10, 11, 0, 0, 0⟩))
        ⟨2026, 10, 12, 0, 0, 0⟩ ≠ [] := by
  set_option maxRecDepth 1000000 in
  refine ⟨by decide, by decide, by decide, by decide, by decide, by decide,
    by decide⟩

/-- C1 amended: for every channel whose source history holds 250
well-formed messages (parseable timestamps, present and pairwise-distinct
ids) — the 200 most recent at or after the one-day threshold, the oldest
strictly before it — the main paging loop of `collect_messages` with
`days = 1` issues exactly 3 page requests (the 500-request cap is never
reached) and computes exactly the conversions of the messages with
timestamp at or after the threshold: the two full pages are kept whole,
the straddling third page is filtered, and paging stops there (first
conjunct).  But at the program's actual state (`self.config` is never
assigned, embedded as `cfgThreadIds = none`) the computed collection is
then discarded: the missing-attribute `AttributeError` lands in the
channel-level `except`, so the call still counts those 3 requests yet
returns no messages and no thread data (remaining conjuncts). -/
theorem collect_messages_window_amended (hist : List RawMsg)
    (threshold now : DateTime) (channel_id : String)
    (channelInfo : Option (Option String))
    (threadFetch : String → Nat → Option String → List RawMsg)
    (hlen : hist.length = 250)
    (hvalid : ∀ m ∈ hist, tsIsValid m)
    (hid : ∀ m ∈ hist, m.id.isSome)
    (hnodup : (hist.map RawMsg.id).Nodup)
    (hwin : ∀ m ∈ hist.take 200, rawTsGe threshold m)
    (hold : hist.getLast?.map (rawTsGe threshold) = some false) :
    pageLoop (fetchOf hist) threshold now 500 0 none []
      = (.ok (convertAll (hist.filter (rawTsGe threshold)) now), 3) ∧
    (collect_messages channel_id channelInfo (fetchOf hist) threadFetch
        none none threshold now).mainRequests = 3 ∧
    (collect_messages channel_id channelInfo (fetchOf hist) threadFetch
        none none threshold now).messages = [] ∧
    (collect_messages channel_id channelInfo (fetchOf hist) threadFetch
        none none threshold now).thread_data = [] := by
  -- Page lengths and non-emptiness.
  have l1 : (hist.take 100).length = 100 := by
    rw [List.length_take, hlen]; omega
  have h1ne : hist.take 100 ≠ [] := by
    intro h; rw [h] at l1; simp at l1
  have l2 : ((hist.drop 100).take 100).length = 100 := by
    rw [List.length_take, List.length_drop, hlen]; omega
  have h2ne : (hist.drop 100).take 100 ≠ [] := by
    intro h; rw [h] at l2; simp at l2
  have l3 : (hist.drop 200).length = 50 := by
    rw [List.length_drop, hlen]
  have h3ne : hist.drop 200 ≠ [] := by
    intro h; rw [h] at l3; simp at l3
  have h200eq : hist.take 200 = hist.take 100 ++ (hist.drop 100).take 100 :=
    List.take_add hist 100 100
  have h200ne : hist.take 200 ≠ [] := by
    rw [h200eq]; intro h
    rcases List.append_eq_nil.mp h with ⟨h', _⟩
    exact h1ne h'
  -- Helper: extract a valid timestamp.
  have hts_ex : ∀ m ∈ hist, ∃ d, m.timestamp = TsField.valid d := by
    intro m hm
    have hv := hvalid m hm
    rcases hmt : m.timestamp with _ | d | _
    · simp [tsIsValid, hmt] at hv
    · exact ⟨d, rfl⟩
    · simp [tsIsValid, hmt] at hv
  -- The last element of page 1.
  have hm99mem100 : (hist.take 100).getLast h1ne ∈ hist.take 100 :=
    List.getLast_mem h1ne
  have htake100sub : hist.take 100 ⊆ hist.take 200 := by
    have he : hist.take 100 = (hist.take 200).take 100 := by
      rw [List.take_take]; norm_num
    rw [he]
    exact List.take_subset 100 (hist.take 200)
  have hm99mem200 : (hist.take 100).getLast h1ne ∈ hist.take 200 :=
    htake100sub hm99mem100
  have hm99hist : (hist.take 100).getLast h1ne ∈ hist :=
    List.take_subset 200 hist hm99mem200
  obtain ⟨d99, hd99⟩ := hts_ex _ hm99hist
  obtain ⟨i99, hi99⟩ := Option.isSome_iff_exists.mp (hid _ hm99hist)
  have hltb99 : d99.ltb threshold = false := by
    have hg := hwin _ hm99mem200
    simp [rawTsGe, hd99] at hg
    exact hg
  -- The last element of page 2.
  have hp2sub : (hist.drop 100).take 100 ⊆ hist.take 200 := by
    rw [h200eq]; exact fun a ha => List.mem_append_right _ ha
  have hm199mem : ((hist.drop 100).take 100).getLast h2ne ∈ hist.take 200 :=
    hp2sub (List.getLast_mem h2ne)
  have hm199hist : ((hist.drop 100).take 100).getLast h2ne ∈ hist :=
    List.take_subset 200 hist hm199mem
  obtain ⟨d199, hd199⟩ := hts_ex _ hm199hist
  obtain ⟨i199, hi199⟩ := Option.isSome_iff_exists.mp (hid _ hm199hist)
  have hltb199 : d199.ltb threshold = false := by
    have hg := hwin _ hm199mem
    simp [rawTsGe, hd199] at hg
    exact hg
  -- The last element of page 3 is the last of the whole history.
  have hlast3 : (hist.drop 200).getLast? = hist.getLast? := by
    conv_rhs => rw [← List.take_append_drop 200 hist]
    rw [List.getLast?_append, List.getLast?_eq_getLast (hist.drop 200) h3ne]
    rfl
  have hlast3' : (hist.drop 200).getLast? = some ((hist.drop 200).getLast h3ne) :=
    List.getLast?_eq_getLast _ h3ne
  have hm249hist : (hist.drop 200).getLast h3ne ∈ hist :=
    List.drop_subset 200 hist (List.getLast_mem h3ne)
  obtain ⟨d249, hd249⟩ := hts_ex _ hm249hist
  have hge249 : rawTsGe threshold ((hist.drop 200).getLast h3ne) = false := by
    rw [← hlast3, hlast3', Option.map_some'] at hold
    exact Option.some_inj.mp hold
  have hltb249 : d249.ltb threshold = true := by
    have h := hge249
    unfold rawTsGe at h
    rw [hd249] at h
    simpa using h
  -- The three fetches.
  have hb1 : fetchOf hist 0 none = hist.take 100 := rfl
  have hdecomp1 : hist = (hist.take 100).dropLast
      ++ (hist.take 100).getLast h1ne :: hist.drop 100 := by
    conv_lhs => rw [← List.take_append_drop 100 hist,
      ← List.dropLast_append_getLast h1ne]
    simp
  have hb2 : fetchOf hist 1 (some i99) = (hist.drop 100).take 100 := by
    have hnodup' : (((hist.take 100).dropLast
        ++ (hist.take 100).getLast h1ne :: hist.drop 100).map RawMsg.id).Nodup := by
      rw [← hdecomp1]; exact hnodup
    have h := fetchOf_after (hist.take 100).dropLast (hist.drop 100)
      ((hist.take 100).getLast h1ne) i99 1 hnodup' hi99
    calc fetchOf hist 1 (some i99)
        = fetchOf ((hist.take 100).dropLast
            ++ (hist.take 100).getLast h1ne :: hist.drop 100) 1 (some i99) := by
          rw [← hdecomp1]
      _ = (hist.drop 100).take 100 := h
  have hm199top : (hist.take 200).getLast h200ne
      = ((hist.drop 100).take 100).getLast h2ne := by
    have h1 : (hist.take 200).getLast? = some ((hist.take 200).getLast h200ne) :=
      List.getLast?_eq_getLast _ h200ne
    have h2 : (hist.take 200).getLast?
        = some (((hist.drop 100).take 100).getLast h2ne) := by
      rw [h200eq, List.getLast?_append,
        List.getLast?_eq_getLast ((hist.drop 100).take 100) h2ne]
      rfl
    rw [h1] at h2
    exact Option.some_inj.mp h2
  have hdecomp2 : hist = (hist.take 200).dropLast
      ++ ((hist.drop 100).take 100).getLast h2ne :: hist.drop 200 := by
    conv_lhs => rw [← List.take_append_drop 200 hist,
      ← List.dropLast_append_getLast h200ne]
    rw [hm199top]
    simp
  have hb3 : fetchOf hist 2 (some i199) = hist.drop 200 := by
    have hnodup' : (((hist.take 200).dropLast
        ++ ((hist.drop 100).take 100).getLast h2ne :: hist.drop 200).map
          RawMsg.id).Nodup := by
      rw [← hdecomp2]; exact hnodup
    have h := fetchOf_after (hist.take 200).dropLast (hist.drop 200)
      (((hist.drop 100).take 100).getLast h2ne) i199 2 hnodup' hi199
    calc fetchOf hist 2 (some i199)
        = fetchOf ((hist.take 200).dropLast
            ++ ((hist.drop 100).take 100).getLast h2ne :: hist.drop 200) 2
            (some i199) := by
          rw [← hdecomp2]
      _ = (hist.drop 200).take 100 := h
      _ = hist.drop 200 := List.take_of_length_le (by rw [l3]; omega)
  -- Chain the three loop iterations.
  have hstep1 : pageLoop (fetchOf hist) threshold now 500 0 none []
      = pageLoop (fetchOf hist) threshold now 499 1 (some i99)
          ([] ++ convertAll (hist.take 100) now) :=
    pageLoop_step_full (fetchOf hist) threshold now 499 0 none [] _ _ d99 i99
      hb1 (List.getLast?_eq_getLast _ h1ne) hd99 hltb99 hi99
  have hstep2 : pageLoop (fetchOf hist) threshold now 499 1 (some i99)
        ([] ++ convertAll (hist.take 100) now)
      = pageLoop (fetchOf hist) threshold now 498 2 (some i199)
          (([] ++ convertAll (hist.take 100) now)
            ++ convertAll ((hist.drop 100).take 100) now) :=
    pageLoop_step_full (fetchOf hist) threshold now 498 1 (some i99) _ _ _ d199 i199
      hb2 (List.getLast?_eq_getLast _ h2ne) hd199 hltb199 hi199
  have hstep3 : pageLoop (fetchOf hist) threshold now 498 2 (some i199)
        (([] ++ convertAll (hist.take 100) now)
          ++ convertAll ((hist.drop 100).take 100) now)
      = (.ok ((([] ++ convertAll (hist.take 100) now)
            ++ convertAll ((hist.drop 100).take 100) now)
            ++ convertAll ((hist.drop 200).filter (rawTsGe threshold)) now), 3) :=
    pageLoop_step_straddle (fetchOf hist) threshold now 497 2 (some i199) _ _ _ d249
      hb3 hlast3' hd249 hltb249
      (fun m hm => hvalid m (List.drop_subset 200 hist hm))
  have hloop := (hstep1.trans hstep2).trans hstep3
  -- The filtered history splits along the three pages.
  have hf1 : (hist.take 100).filter (rawTsGe threshold) = hist.take 100 :=
    List.filter_eq_self.mpr (fun m hm => hwin m (htake100sub hm))
  have hf2 : ((hist.drop 100).take 100).filter (rawTsGe threshold)
      = (hist.drop 100).take 100 :=
    List.filter_eq_self.mpr (fun m hm => hwin m (hp2sub hm))
  have hsplit : hist.filter (rawTsGe threshold)
      = hist.take 100 ++ ((hist.drop 100).take 100
        ++ (hist.drop 200).filter (rawTsGe threshold)) := by
    conv_lhs => rw [← List.take_append_drop 200 hist, h200eq]
    rw [List.filter_append, List.filter_append, hf1, hf2, List.append_assoc]
  -- The accumulated pages are exactly the filtered history.
  have hconv : ((([] ++ convertAll (hist.take 100) now)
        ++ convertAll ((hist.drop 100).take 100) now)
        ++ convertAll ((hist.drop 200).filter (rawTsGe threshold)) now)
      = convertAll (hist.filter (rawTsGe threshold)) now := by
    rw [hsplit]
    unfold convertAll
    rw [List.filterMap_append, List.filterMap_append]
    simp [List.append_assoc]
  -- Assemble.
  refine ⟨by rw [hloop, hconv], ?_, ?_, ?_⟩
  · unfold collect_messages
    rw [hloop]
  · unfold collect_messages
    rw [hloop]
  · unfold collect_messages
    rw [hloop]

/-- C4 violated by the code: with one configured channel whose collection
*succeeds*, `generate_all_channel_summaries` raises `ValueError`
(`collect_from_config` stores `(messages, channel_name, thread_data)`
3-tuples, its docstring and the consuming loop expect 2-tuples), so no
mapping over the configured channels is returned (conjunct 1; conjunct 2
shows the channel's collection was fine).  In guild mode
`collect_from_config` itself raises the same way (conjunct 3).  And there
is no per-channel handler: a raising channel aborts the whole collection
and the sibling `c2` never completes (conjunct 4). -/
theorem orchestration_channel_boundary_bug :
    generate_all_channel_summaries w4 (create_summarizer w4 .deepseek)
      ⟨none, ["c1"]⟩ collect4 [] = .error .valueError ∧
    collect4 (some "c1") = .ok ([msgA], "chan", []) ∧
    collect_from_config ⟨some "g", []⟩ collect4 [(some "tc", 0)]
      = .error .valueError ∧
    collect_from_config ⟨none, ["c1", "c2"]⟩ collect4err [] = .error .exc :=
  ⟨rfl, rfl, rfl, rfl⟩

/-- C9 witness: the round trip at a concrete record. -/
theorem convert_roundtrip_witness :
    convert_to_message_model c9raw ⟨2026, 10, 12, 23, 0, 0⟩ = some c9msg ∧
    c9msg.formatted_content
      = "[" ++ c9msg.formatted_time ++ "] " ++ "alice" ++ ": " ++ "hi" ∧
    c9msg.formatted_content = "[2026-10-12 09:30:05] alice: hi" :=
  ⟨rfl,
   (convert_roundtrip c9raw ⟨2026, 10, 12, 23, 0, 0⟩ "alice" c9msg rfl rfl).1,
   by decide⟩

/-- The ids of the witness history are pairwise distinct: distinct indices
give letter-runs of distinct lengths. -/
theorem wHist_nodup : (wHist.map RawMsg.id).Nodup := by
  rw [wHist, List.map_map]
  refine List.Nodup.map ?_ (List.nodup_range 250)
  intro a b h
  have h' : (wMsg a).id = (wMsg b).id := h
  rw [show (wMsg a).id = some (String.mk (List.replicate a 'x')) from rfl,
      show (wMsg b).id = some (String.mk (List.replicate b 'x')) from rfl] at h'
  have h2 := Option.some.inj h'
  have h3 : List.replicate a 'x' = List.replicate b 'x' := congrArg String.data h2
  have h4 := congrArg List.length h3
  simpa using h4

/-- The 200 newest messages of the witness history lie at or after the
one-day threshold. -/
theorem wHist_window :
    ∀ m ∈ wHist.take 200, rawTsGe ⟨2026, 10, 11, 0, 0, 0⟩ m := by
  have hw : wHist.take 200 = (List.range 200).map wMsg := by
    rw [wHist, ← List.map_take, List.take_range]
    norm_num
  intro m hm
  rw [hw] at hm
  obtain ⟨i, hi, rfl⟩ := List.mem_map.mp hm
  rw [List.mem_range] at hi
  show (!(wTs i).ltb ⟨2026, 10, 11, 0, 0, 0⟩) = true
  rw [wTs, if_pos hi]
  have hh : 23 - i / 60 ≠ 0 := by omega
  simp [DateTime.ltb, hh]

set_option maxRecDepth 10000 in
/-- C1 witness: the amended statement at a concrete 250-message history
whose 200 newest messages lie within the final day, at the program's
actual state (`cfgThreadIds = none`). -/
theorem collect_messages_window_amended_witness :
    pageLoop (fetchOf wHist) ⟨2026, 10, 11, 0, 0, 0⟩ ⟨2026, 10, 12, 0, 0, 0⟩
        500 0 none []
      = (.ok (convertAll (wHist.filter (rawTsGe ⟨2026, 10, 11, 0, 0, 0⟩))
          ⟨2026, 10, 12, 0, 0, 0⟩), 3) ∧
    (collect_messages "c1" (some (some "chan")) (fetchOf wHist)
        (fun _ _ _ => []) none none
        ⟨2026, 10, 11, 0, 0, 0⟩ ⟨2026, 10, 12, 0, 0, 0⟩).mainRequests = 3 ∧
    (collect_messages "c1" (some (some "chan")) (fetchOf wHist)
        (fun _ _ _ => []) none none
        ⟨2026, 10, 11, 0, 0, 0⟩ ⟨2026, 10, 12, 0, 0, 0⟩).messages = [] ∧
    (collect_messages "c1" (some (some "chan")) (fetchOf wHist)
        (fun _ _ _ => []) none none
        ⟨2026, 10, 11, 0, 0, 0⟩ ⟨2026, 10, 12, 0, 0, 0⟩).thread_data = [] :=
  collect_messages_window_amended wHist ⟨2026, 10, 11, 0, 0, 0⟩
    ⟨2026, 10, 12, 0, 0, 0⟩ "c1" (some (some "chan")) (fun _ _ _ => [])
    (by decide) (by decide) (by decide) wHist_nodup wHist_window (by decide)

end DS

